import Mathlib

/-!
Verification development for the bulk-labelling pipeline.

The repository keeps a stable identity for data-quality checks and
reconciliation column-mappings of a remote catalog.  The Python sources are
shallowly embedded here:

* `FetchDetails`  — `Step_2_Fetch_Policy_Details.py` (harvest-time identity keys);
* `SyncDQ`        — `Step_3_Sync_Policy_Labels.py` (diff, ledger update and
  label reconciliation for quality-rule policies);
* `SyncRecon`     — `Step_3_Sync_Recon_Policy_Labels.py` (same for
  reconciliation policies).

JSON dictionary fields read with `dict.get(k, d)` are embedded as `Option`
fields (`none` covers an absent key and a JSON `null`; `getD` applies the
Python default).  The only external library call in the embedded core,
`hashlib.md5(e.encode()).hexdigest()`, is abstracted as a function parameter
`md5hex : String → String`; every theorem below holds for an arbitrary digest
function, which is strictly stronger than fixing MD5.  Python `str(x)` on an
optional id is embedded as `pyStr`.
-/

/-- Python `str` applied to an optional string id (`str(None) = "None"`). -/
def pyStr : Option String → String
  | none => "None"
  | some s => s

/-- One `{key, value}` label dictionary. -/
structure Label where
  key : Option String
  value : Option String
deriving Repr, DecidableEq

/-- The truthy label keys of a label list: Python
`{label.get("key") for label in labels if label.get("key")}`. -/
def truthyKeys (labels : List Label) : List String :=
  labels.filterMap fun l =>
    match l.key with
    | some k => if k = "" then none else some k
    | none => none

/-- The builders' label normalization
`{"key": l.get("key"), "value": l.get("value")}`. -/
def normalizeLabel (l : Label) : Label := { key := l.key, value := l.value }

/-- The `value` sub-dictionary of a check item, when it is truthy
(a present, non-empty dict).  `Option ItemValue = none` models an absent,
`null` or empty (hence falsy) `value`. -/
structure ItemValue where
  udfId : Option String
deriving Repr, DecidableEq

/-- One check item of a quality-rule policy (`details.items[i]`),
with exactly the fields the sources read. -/
structure Item where
  id : Option String
  measurementType : Option String
  columnName : Option String
  ruleExpression : Option String
  executionOrder : Option Int
  weightage : Option Int
  businessExplanation : Option String
  labels : List Label
  isWarning : Option Bool
  associatedDQRecommendationId : Option Int
  bulkPolicyDqRuleId : Option Int
  thresholdConfig : Option String
  value : Option ItemValue
deriving Repr, DecidableEq

namespace FetchDetails

/-- `compute_hash` of `Step_2_Fetch_Policy_Details.py`: `"empty"` for a falsy
expression, else the first 8 characters of the hex digest. -/
def compute_hash (md5hex : String → String) (expression : String) : String :=
  if expression = "" then "empty" else (md5hex expression).take 8

/-- `get_column_name` of `Step_2_Fetch_Policy_Details.py`.  Note the default
branch returns the bare `columnName`. -/
def get_column_name (md5hex : String → String) (item : Item) : String :=
  let measurement_type := item.measurementType.getD ""
  let column_name := item.columnName.getD ""
  if measurement_type = "CUSTOM" then
    "CUSTOM-" ++ compute_hash md5hex (item.ruleExpression.getD "")
  else if measurement_type = "SQL_METRIC" then
    "SQL_METRIC-" ++ compute_hash md5hex (item.ruleExpression.getD "")
  else if measurement_type = "UDF_PREDICATE" then
    "UDF_PREDICATE-" ++ (match item.value with
      | some v => v.udfId.getD "unknown"
      | none => "unknown")
  else if measurement_type = "SIZE_CHECK" then
    "SIZE_CHECK"
  else
    column_name

end FetchDetails

namespace SyncDQ

/-- `compute_hash` of `Step_3_Sync_Policy_Labels.py` (textually identical to
the one in `Step_2_Fetch_Policy_Details.py`). -/
def compute_hash (md5hex : String → String) (expression : String) : String :=
  if expression = "" then "empty" else (md5hex expression).take 8

/-- `get_column_name` of `Step_3_Sync_Policy_Labels.py`.  Its default branch
prefixes the measurement type when both it and the column name are present. -/
def get_column_name (md5hex : String → String) (item : Item) : String :=
  let measurement_type := item.measurementType.getD ""
  let column_name := item.columnName.getD ""
  if measurement_type = "CUSTOM" then
    "CUSTOM-" ++ compute_hash md5hex (item.ruleExpression.getD "")
  else if measurement_type = "SQL_METRIC" then
    "SQL_METRIC-" ++ compute_hash md5hex (item.ruleExpression.getD "")
  else if measurement_type = "UDF_PREDICATE" then
    "UDF_PREDICATE-" ++ (match item.value with
      | some v => v.udfId.getD "unknown"
      | none => "unknown")
  else if measurement_type = "SIZE_CHECK" then
    "SIZE_CHECK"
  else
    if column_name ≠ "" ∧ measurement_type ≠ "" then
      measurement_type ++ "-" ++ column_name
    else if column_name ≠ "" then
      column_name
    else if measurement_type ≠ "" then
      measurement_type
    else
      "UNKNOWN"

end SyncDQ

/-- Truthiness of an optional string (absent, `null` and `""` are falsy). -/
def truthy (o : Option String) : Bool := o.getD "" ≠ ""

/-- First-match association lookup (the observable semantics of a Python
dictionary read). -/
def alookup {β : Type} (k : String) : List (String × β) → Option β
  | [] => none
  | (a, v) :: rest => if a = k then some v else alookup k rest

/-- A two-level dictionary `policyId -> identityKey -> originalId`
(`defaultdict(dict)` in the sources), with first-match lookup semantics. -/
abbrev PolicyLabels := List (String × List (String × String))

/-- Read `policy_labels[pid][k]`; a missing policy behaves as an empty inner
dictionary, as with `defaultdict`. -/
def lookup2 (pl : PolicyLabels) (pid k : String) : Option String :=
  alookup k ((alookup pid pl).getD [])

/-- Assignment `policy_labels[pid][k] = v`: shadowing insert whose observable
content (under `lookup2`) is the dictionary update. -/
def insert2 (pl : PolicyLabels) (pid k v : String) : PolicyLabels :=
  (pid, (k, v) :: ((alookup pid pl).getD [])) :: pl

namespace SyncDQ

/-- The presence sets `extract_items_info` builds from one policy snapshot.
Python sets are embedded as lists with membership semantics. -/
structure ItemsInfo where
  column_names : List String
  custom_expressions : List String
  sql_metric_expressions : List String
  udf_predicate_ids : List String
  has_size_check : Bool
  items : List Item
deriving Repr, DecidableEq

/-- The threshold-level object; the builder's Python default is
`{"success": 100, "warning": 70}`. -/
structure ThresholdLevel where
  success : Int
  warning : Int
deriving Repr, DecidableEq

/-- The backing-asset object (shape shared by the fetched rule and the
payload, which copies exactly these two fields). -/
structure BackingAsset where
  tableAssetId : Option Int
  id : Option Int
deriving Repr, DecidableEq

/-- The fetched `notificationChannels` object. -/
structure NotificationChannels where
  configuredNotificationGroupIds : Option (List Int)
  notifyOn : Option (List String)
  notifyOnSuccess : Option Bool
  severity : Option String
  alertsEnabled : Option Bool
  reNotifyFactor : Option Int
  notifyOnWarning : Option Bool
  notificationEnabled : Option Bool
deriving Repr, DecidableEq

/-- The fetched `rule` object of a quality-rule policy, with the fields this
script reads plus `analyticsPipelineId` and `scheduleType`, which the remote
definition carries (the reconciliation variant reads both) but which this
builder overwrites without reading. -/
structure Rule where
  subType : Option String
  enabled : Option Bool
  name : Option String
  description : Option String
  schedule : Option String
  executionTimeoutInMinutes : Option Int
  totalExecutionTimeoutInMinutes : Option Int
  analyticsPipelineId : Option Int
  scheduleType : Option String
  jobSchedule : Option String
  segments : Option (List String)
  customSqlConfig : Option String
  policyScoreStrategy : Option String
  thresholdLevel : Option ThresholdLevel
  id : Option Int
  includeInQualityScore : Option Bool
  type : Option String
  scheduled : Option Bool
  backingAsset : Option BackingAsset
  notificationChannels : Option NotificationChannels
  sparkResourceConfig : Option String
  policyGroups : Option (List String)
  labels : Option (List Label)
  tags : Option (List String)
  additionalPersistedColumns : Option (List String)
  filter : Option String
  sparkSQLFilterType : Option String
  engineType : Option String
deriving Repr, DecidableEq

/-- The fetched `details` object. -/
structure Details where
  items : List Item
  transformUDFs : List String
deriving Repr, DecidableEq

/-- One fetched quality-rule policy definition. -/
structure PolicyData where
  rule : Rule
  details : Details
deriving Repr, DecidableEq

/-- `extract_items_info`: category-specific presence sets of one snapshot. -/
def extract_items_info (data : PolicyData) : ItemsInfo :=
  let items := data.details.items
  { column_names := items.filterMap fun it =>
      let mt := it.measurementType.getD ""
      if mt ≠ "CUSTOM" ∧ mt ≠ "SQL_METRIC" ∧ mt ≠ "UDF_PREDICATE" ∧ mt ≠ "SIZE_CHECK"
          ∧ it.columnName.getD "" ≠ "" then
        some (it.columnName.getD "")
      else none,
    custom_expressions := items.filterMap fun it =>
      if it.measurementType.getD "" = "CUSTOM" ∧ it.ruleExpression.getD "" ≠ "" then
        some (it.ruleExpression.getD "")
      else none,
    sql_metric_expressions := items.filterMap fun it =>
      if it.measurementType.getD "" = "SQL_METRIC" ∧ it.ruleExpression.getD "" ≠ "" then
        some (it.ruleExpression.getD "")
      else none,
    udf_predicate_ids := items.filterMap fun it =>
      if it.measurementType.getD "" = "UDF_PREDICATE" then
        match it.value with
        | some v => match v.udfId with
          | some u => if u ≠ "" then some u else none
          | none => none
        | none => none
      else none,
    has_size_check := items.any fun it => it.measurementType.getD "" = "SIZE_CHECK",
    items := items }

/-- The `is_new` classification of one latest-snapshot item against the
baseline presence sets (the body of the `find_new_rules` loop, including the
literal double condition of the CUSTOM branch). -/
def is_new (v1_info : ItemsInfo) (item : Item) : Bool :=
  let measurement_type := item.measurementType.getD ""
  let column_name := item.columnName.getD ""
  let rule_expression := item.ruleExpression.getD ""
  if measurement_type = "CUSTOM" then
    if rule_expression ≠ "" ∧ ¬ rule_expression ∈ v1_info.custom_expressions then true
    else if v1_info.custom_expressions = [] ∧ rule_expression ≠ "" then true
    else false
  else if measurement_type = "SQL_METRIC" then
    rule_expression ≠ "" ∧ ¬ rule_expression ∈ v1_info.sql_metric_expressions
  else if measurement_type = "UDF_PREDICATE" then
    match item.value with
    | some v => match v.udfId with
      | some u => u ≠ "" ∧ ¬ u ∈ v1_info.udf_predicate_ids
      | none => false
    | none => false
  else if measurement_type = "SIZE_CHECK" then
    ¬ v1_info.has_size_check
  else
    column_name ≠ "" ∧ ¬ column_name ∈ v1_info.column_names

/-- One row of the quality-rule ledger as produced by `find_new_rules`. -/
structure NewRule where
  policyId : String
  policyName : String
  ruleId : Option String
  ruleType : String
  columnName : String
deriving Repr, DecidableEq

/-- `find_new_rules`: every latest-snapshot item classified new, as a ledger
row keyed by `get_column_name`. -/
def find_new_rules (md5hex : String → String) (v1_info latest_info : ItemsInfo)
    (policy_id policy_name : String) : List NewRule :=
  latest_info.items.filterMap fun item =>
    if is_new v1_info item then
      some { policyId := policy_id, policyName := policy_name, ruleId := item.id,
             ruleType := item.measurementType.getD "",
             columnName := get_column_name md5hex item }
    else none

/-- The payload's `notificationChannels` object (defaults applied,
`notificationEnabled` forced to `True` by the builder). -/
structure PayloadNotificationChannels where
  configuredNotificationGroupIds : List Int
  notifyOn : List String
  notifyOnSuccess : Bool
  severity : String
  alertsEnabled : Bool
  reNotifyFactor : Int
  notifyOnWarning : Bool
  notificationEnabled : Bool
deriving Repr, DecidableEq

/-- The payload's `rule` object. -/
structure PayloadRule where
  subType : String
  enabled : Bool
  name : Option String
  description : Option String
  schedule : String
  executionTimeoutInMinutes : Option Int
  totalExecutionTimeoutInMinutes : Option Int
  analyticsPipelineId : Option Int
  scheduleType : String
  jobSchedule : Option String
  segments : List String
  customSqlConfig : Option String
  policyScoreStrategy : String
  thresholdLevel : ThresholdLevel
  id : Option Int
  includeInQualityScore : Bool
  type : String
  scheduled : Bool
  backingAsset : BackingAsset
  notificationChannels : PayloadNotificationChannels
  sparkResourceConfig : Option String
  policyGroups : List String
  labels : List Label
  tags : List String
  additionalPersistedColumns : List String
  filter : Option String
  sparkSQLFilterType : String
deriving Repr, DecidableEq

/-- One updated item of the payload (`updated_item` in the source; the
`ruleExpression` key is present only when the fetched value is truthy). -/
structure PayloadItem where
  measurementType : Option String
  columnName : String
  executionOrder : Option Int
  weightage : Option Int
  businessExplanation : String
  labels : List Label
  isWarning : Bool
  associatedDQRecommendationId : Option Int
  bulkPolicyDqRuleId : Option Int
  thresholdConfig : Option String
  value : Option ItemValue
  id : Option String
  ruleExpression : Option String
deriving Repr, DecidableEq

/-- The full PUT payload of `build_update_payload`. -/
structure Payload where
  rule : PayloadRule
  items : List PayloadItem
  transformUDFs : List String
  engineType : String
deriving Repr, DecidableEq

/-- The per-item body of the `build_update_payload` loop: the updated item
together with the keys it appends to `labels_added` and `labels_skipped`.
The `label_mappings` values are the ledger's original ids, already strings
(`str(rule_id)` in the source). -/
def processItem (md5hex : String → String) (override : Bool)
    (label_mappings : List (String × String)) (item : Item) :
    PayloadItem × List String × List String :=
  let item_column_key := get_column_name md5hex item
  let r : List Label × List String × List String :=
    if override then
      match alookup item_column_key label_mappings with
      | some rule_id =>
          ([{ key := some item_column_key, value := some rule_id }], [item_column_key], [])
      | none => ([], [], [])
    else
      match alookup item_column_key label_mappings with
      | some rule_id =>
          if item_column_key ∈ truthyKeys item.labels then
            (item.labels, [], [item_column_key])
          else
            (item.labels ++ [{ key := some item_column_key, value := some rule_id }],
             [item_column_key], [])
      | none => (item.labels, [], [])
  ({ measurementType := item.measurementType,
     columnName := item.columnName.getD "",
     executionOrder := item.executionOrder,
     weightage := item.weightage,
     businessExplanation := item.businessExplanation.getD "",
     labels := r.1.map normalizeLabel,
     isWarning := item.isWarning.getD false,
     associatedDQRecommendationId := item.associatedDQRecommendationId,
     bulkPolicyDqRuleId := item.bulkPolicyDqRuleId,
     thresholdConfig := item.thresholdConfig,
     value := item.value,
     id := item.id,
     ruleExpression := if item.ruleExpression.getD "" = "" then none else item.ruleExpression },
   r.2.1, r.2.2)

/-- The `rule` object of the payload, field for field from the source
(note the three hard-coded values: `analyticsPipelineId := none`,
`scheduleType := "RECENT"`, `notificationEnabled := true`). -/
def buildPayloadRule (rule : Rule) : PayloadRule :=
  let backing_asset := rule.backingAsset.getD { tableAssetId := none, id := none }
  let notification_channels := rule.notificationChannels.getD
    { configuredNotificationGroupIds := none, notifyOn := none, notifyOnSuccess := none,
      severity := none, alertsEnabled := none, reNotifyFactor := none,
      notifyOnWarning := none, notificationEnabled := none }
  { subType := rule.subType.getD "ASSET",
    enabled := rule.enabled.getD true,
    name := rule.name,
    description := rule.description,
    schedule := rule.schedule.getD "",
    executionTimeoutInMinutes := rule.executionTimeoutInMinutes,
    totalExecutionTimeoutInMinutes := rule.totalExecutionTimeoutInMinutes,
    analyticsPipelineId := none,
    scheduleType := "RECENT",
    jobSchedule := rule.jobSchedule,
    segments := rule.segments.getD [],
    customSqlConfig := rule.customSqlConfig,
    policyScoreStrategy := rule.policyScoreStrategy.getD "WEIGHTAGE",
    thresholdLevel := rule.thresholdLevel.getD { success := 100, warning := 70 },
    id := rule.id,
    includeInQualityScore := rule.includeInQualityScore.getD true,
    type := rule.type.getD "DATA_QUALITY",
    scheduled := rule.scheduled.getD false,
    backingAsset := { tableAssetId := backing_asset.tableAssetId, id := backing_asset.id },
    notificationChannels :=
      { configuredNotificationGroupIds := notification_channels.configuredNotificationGroupIds.getD [],
        notifyOn := notification_channels.notifyOn.getD [],
        notifyOnSuccess := notification_channels.notifyOnSuccess.getD false,
        severity := notification_channels.severity.getD "CRITICAL",
        alertsEnabled := notification_channels.alertsEnabled.getD true,
        reNotifyFactor := notification_channels.reNotifyFactor.getD 0,
        notifyOnWarning := notification_channels.notifyOnWarning.getD false,
        notificationEnabled := true },
    sparkResourceConfig := rule.sparkResourceConfig,
    policyGroups := rule.policyGroups.getD [],
    labels := rule.labels.getD [],
    tags := rule.tags.getD [],
    additionalPersistedColumns := rule.additionalPersistedColumns.getD [],
    filter := rule.filter,
    sparkSQLFilterType := rule.sparkSQLFilterType.getD "STATIC" }

/-- `build_update_payload` of `Step_3_Sync_Policy_Labels.py`, with the
module-level `OVERRIDE_LABELS` flag made an explicit parameter.  Returns
`(payload, labels_added, labels_skipped)`; the loop's `labels_removed`
accumulator is never returned by the source and is omitted. -/
def build_update_payload (md5hex : String → String) (override : Bool)
    (policy_data : PolicyData) (label_mappings : List (String × String)) :
    Payload × List String × List String :=
  let results := policy_data.details.items.map (processItem md5hex override label_mappings)
  ({ rule := buildPayloadRule policy_data.rule,
     items := results.map (·.1),
     transformUDFs := policy_data.details.transformUDFs,
     engineType := policy_data.rule.engineType.getD "JDBC_SQL" },
   (results.map (·.2.1)).flatten,
   (results.map (·.2.2)).flatten)

/-- Reading one updated item back as a fetched item (what a re-fetch after a
successful PUT returns for that item). -/
def itemOfPayloadItem (p : PayloadItem) : Item :=
  { id := p.id, measurementType := p.measurementType, columnName := some p.columnName,
    ruleExpression := p.ruleExpression, executionOrder := p.executionOrder,
    weightage := p.weightage, businessExplanation := some p.businessExplanation,
    labels := p.labels, isWarning := some p.isWarning,
    associatedDQRecommendationId := p.associatedDQRecommendationId,
    bulkPolicyDqRuleId := p.bulkPolicyDqRuleId, thresholdConfig := p.thresholdConfig,
    value := p.value }

/-- Reading the payload's rule object back as a fetched rule. -/
def ruleOfPayloadRule (p : PayloadRule) (engineType : String) : Rule :=
  { subType := some p.subType, enabled := some p.enabled, name := p.name,
    description := p.description, schedule := some p.schedule,
    executionTimeoutInMinutes := p.executionTimeoutInMinutes,
    totalExecutionTimeoutInMinutes := p.totalExecutionTimeoutInMinutes,
    analyticsPipelineId := p.analyticsPipelineId, scheduleType := some p.scheduleType,
    jobSchedule := p.jobSchedule, segments := some p.segments,
    customSqlConfig := p.customSqlConfig, policyScoreStrategy := some p.policyScoreStrategy,
    thresholdLevel := some p.thresholdLevel, id := p.id,
    includeInQualityScore := some p.includeInQualityScore, type := some p.type,
    scheduled := some p.scheduled, backingAsset := some p.backingAsset,
    notificationChannels := some
      { configuredNotificationGroupIds := some p.notificationChannels.configuredNotificationGroupIds,
        notifyOn := some p.notificationChannels.notifyOn,
        notifyOnSuccess := some p.notificationChannels.notifyOnSuccess,
        severity := some p.notificationChannels.severity,
        alertsEnabled := some p.notificationChannels.alertsEnabled,
        reNotifyFactor := some p.notificationChannels.reNotifyFactor,
        notifyOnWarning := some p.notificationChannels.notifyOnWarning,
        notificationEnabled := some p.notificationChannels.notificationEnabled },
    sparkResourceConfig := p.sparkResourceConfig, policyGroups := some p.policyGroups,
    labels := some p.labels, tags := some p.tags,
    additionalPersistedColumns := some p.additionalPersistedColumns, filter := p.filter,
    sparkSQLFilterType := some p.sparkSQLFilterType, engineType := some engineType }

/-- Reading a whole produced payload back as a fetched policy definition:
the second-pass input of the idempotence property. -/
def policyDataOfPayload (p : Payload) : PolicyData :=
  { rule := ruleOfPayloadRule p.rule p.engineType,
    details := { items := p.items.map itemOfPayloadItem, transformUDFs := p.transformUDFs } }

/-- One row of `Policy_Rule_Details.csv` as parsed by `csv.DictReader`. -/
structure CsvRow where
  Policy_ID : Option String
  Policy_Name : Option String
  Rule_ID : Option String
  Rule_Type : Option String
  Column_Name : Option String
deriving Repr, DecidableEq

/-- `read_existing_csv` of `Step_3_Sync_Policy_Labels.py`, restricted to the
state it derives from the parsed rows: `(existing_rule_ids, policy_labels)`. -/
def read_existing_csv (rows : List CsvRow) : List String × PolicyLabels :=
  rows.foldl
    (fun acc row =>
      let acc1 := if truthy row.Rule_ID then (row.Rule_ID.getD "") :: acc.1 else acc.1
      let acc2 :=
        if truthy row.Policy_ID ∧ truthy row.Column_Name ∧ truthy row.Rule_ID then
          insert2 acc.2 (row.Policy_ID.getD "") (row.Column_Name.getD "") (row.Rule_ID.getD "")
        else acc.2
      (acc1, acc2))
    ([], [])

/-- The ledger-append fragment of `main` (the `for rule in new_rules` loop):
a row is appended only when `str(rule["Rule_ID"])` is not yet in
`existing_rule_ids`, and then `policy_labels[pid][rule["Column_Name"]]` is
assigned that rule id.  Returns `(new_rules_added, existing_rule_ids,
policy_labels)`. -/
def applyNewRules (pid : String) :
    List String → PolicyLabels → List NewRule → List NewRule × List String × PolicyLabels
  | ids, pl, [] => ([], ids, pl)
  | ids, pl, r :: rs =>
    if pyStr r.ruleId ∈ ids then applyNewRules pid ids pl rs
    else
      let rest := applyNewRules pid (pyStr r.ruleId :: ids)
        (insert2 pl pid r.columnName (pyStr r.ruleId)) rs
      (r :: rest.1, rest.2)

/-- One entry of `policies_to_compare`. -/
structure PolicyToCompare where
  policy_id : String
  version : Nat
  name : String
deriving Repr, DecidableEq

/-- STEP 1 of `main`: per diff candidate, fetch the baseline (version 1) and
latest snapshots; when either fetch yields `None` the policy is skipped
(`continue`), otherwise the diff runs and its new rules are applied to the
ledger state.  `fetch` abstracts `fetch_policy_version` (which returns `None`
on a non-200 status or an exception). -/
def step1 (md5hex : String → String) (fetch : String → Nat → Option PolicyData) :
    List PolicyToCompare → List String → PolicyLabels →
    List NewRule × List String × PolicyLabels
  | [], ids, pl => ([], ids, pl)
  | p :: ps, ids, pl =>
    match fetch p.policy_id 1, fetch p.policy_id p.version with
    | some v1_data, some latest_data =>
        let new_rules := find_new_rules md5hex (extract_items_info v1_data)
          (extract_items_info latest_data) p.policy_id p.name
        let st := applyNewRules p.policy_id ids pl new_rules
        let rest := step1 md5hex fetch ps st.2.1 st.2.2
        (st.1 ++ rest.1, rest.2)
    | _, _ => step1 md5hex fetch ps ids pl

end SyncDQ

namespace SyncRecon

/-- `get_column_key` of `Step_3_Sync_Recon_Policy_Labels.py`. -/
def get_column_key (left_col right_col : String) : String :=
  left_col ++ "_" ++ right_col

/-- One column mapping of a reconciliation policy
(`details.columnMappings[i]`). -/
structure Mapping where
  id : Option String
  leftColumnName : Option String
  operation : Option String
  rightColumnName : Option String
  useForJoining : Option Bool
  reconciliationRuleId : Option Int
  isJoinColumnUsedForMeasure : Option Bool
  ignoreNullValues : Option Bool
  weightage : Option Int
  ruleVersion : Option Int
  businessExplanation : Option String
  isWarning : Option Bool
  labels : List Label
  isArchived : Option Bool
  mappingType : Option String
deriving Repr, DecidableEq

/-- One `details.items[i]` entry of a reconciliation policy. -/
structure ReconItem where
  measurementType : Option String
  executionOrder : Option Int
  id : Option Int
deriving Repr, DecidableEq

/-- The left backing asset. -/
structure LeftAsset where
  tableAssetId : Option Int
  id : Option Int
deriving Repr, DecidableEq

/-- The right backing asset (carries an extra `marker`). -/
structure RightAsset where
  tableAssetId : Option Int
  marker : Option String
  id : Option Int
deriving Repr, DecidableEq

/-- A Spark-SQL dynamic-filter variable mapping; the builder's default is
`{"ruleName": rule.get("name"), "mapping": []}`. -/
structure DynFilterMapping where
  ruleName : Option String
  mapping : List String
deriving Repr, DecidableEq

/-- The fetched `sparkResourceConfig` object. -/
structure SparkResourceConfig where
  additionalConfiguration : Option (List String)
  yunikorn : Option String
deriving Repr, DecidableEq

/-- The fetched `notificationChannels` object of a reconciliation policy. -/
structure NotificationChannels where
  configuredNotificationGroupIds : Option (List Int)
  notifyOn : Option (List String)
  notifyOnSuccess : Option Bool
  severity : Option String
  alertsEnabled : Option Bool
  reNotifyFactor : Option Int
  notifyOnWarning : Option Bool
  notificationEnabled : Option Bool
deriving Repr, DecidableEq

/-- The `thresholdLevel` object. -/
structure ThresholdLevel where
  success : Int
  warning : Int
deriving Repr, DecidableEq

/-- The fetched `rule` object of a reconciliation policy. -/
structure Rule where
  subType : Option String
  enabled : Option Bool
  name : Option String
  description : Option String
  executionTimeoutInMinutes : Option Int
  totalExecutionTimeoutInMinutes : Option Int
  analyticsPipelineId : Option Int
  scheduleType : Option String
  jobSchedule : Option String
  segments : Option (List String)
  customSqlConfig : Option String
  policyScoreStrategy : Option String
  thresholdLevel : Option ThresholdLevel
  leftFilter : Option String
  leftSparkFilterSelectedColumns : Option (List String)
  leftSparkSQLFilterType : Option String
  rightFilter : Option String
  rightSparkFilterSelectedColumns : Option (List String)
  rightSparkSQLFilterType : Option String
  delayInMinutes : Option Int
  engineType : Option String
  leftEngineType : Option String
  rightEngineType : Option String
  joinType : Option String
  leftSparkSQLDynamicFilterVariableMapping : Option DynFilterMapping
  rightSparkSQLDynamicFilterVariableMapping : Option DynFilterMapping
  id : Option Int
  includeInQualityScore : Option Bool
  type : Option String
  scheduled : Option Bool
  leftBackingAsset : Option LeftAsset
  rightBackingAsset : Option RightAsset
  timeSecondsOffset : Option Int
  notificationChannels : Option NotificationChannels
  sparkResourceConfig : Option SparkResourceConfig
  resourceStrategyType : Option String
  selectedResourceInventory : Option String
  autoRetryEnabled : Option Bool
  policyGroups : Option (List String)
  labels : Option (List Label)
  tags : Option (List String)
deriving Repr, DecidableEq

/-- The fetched `details` object of a reconciliation policy. -/
structure Details where
  columnMappings : List Mapping
  items : List ReconItem
deriving Repr, DecidableEq

/-- One fetched reconciliation policy definition. -/
structure PolicyData where
  rule : Rule
  details : Details
deriving Repr, DecidableEq

/-- The info `extract_mappings_info` derives from one snapshot. -/
structure MappingsInfo where
  mapping_keys : List String
  mappings : List Mapping
  recon_type : String
deriving Repr, DecidableEq

/-- `extract_mappings_info`. -/
def extract_mappings_info (data : PolicyData) : MappingsInfo :=
  let column_mappings := data.details.columnMappings
  { mapping_keys := column_mappings.filterMap fun m =>
      if m.leftColumnName.getD "" ≠ "" ∧ m.rightColumnName.getD "" ≠ "" then
        some (get_column_key (m.leftColumnName.getD "") (m.rightColumnName.getD ""))
      else none,
    mappings := column_mappings,
    recon_type := match data.details.items with
      | [] => "EQUALITY"
      | it :: _ => it.measurementType.getD "" }

/-- One row of the reconciliation ledger as produced by `find_new_mappings`. -/
structure NewMapping where
  policyId : String
  policyName : String
  ruleId : Option String
  reconType : String
  leftCol : String
  rightCol : String
deriving Repr, DecidableEq

/-- `find_new_mappings`. -/
def find_new_mappings (v1_info latest_info : MappingsInfo)
    (policy_id policy_name : String) : List NewMapping :=
  latest_info.mappings.filterMap fun m =>
    let left_col := m.leftColumnName.getD ""
    let right_col := m.rightColumnName.getD ""
    if left_col ≠ "" ∧ right_col ≠ ""
        ∧ ¬ get_column_key left_col right_col ∈ v1_info.mapping_keys then
      some { policyId := policy_id, policyName := policy_name, ruleId := m.id,
             reconType := latest_info.recon_type, leftCol := left_col,
             rightCol := right_col }
    else none

/-- One updated mapping of the PUT payload. -/
structure PayloadMapping where
  id : Option String
  leftColumnName : String
  operation : String
  rightColumnName : String
  useForJoining : Bool
  reconciliationRuleId : Option Int
  isJoinColumnUsedForMeasure : Bool
  ignoreNullValues : Bool
  weightage : Int
  ruleVersion : Option Int
  businessExplanation : String
  isWarning : Bool
  labels : List Label
  isArchived : Bool
  mappingType : String
deriving Repr, DecidableEq

/-- One updated `items` entry of the PUT payload. -/
structure PayloadReconItem where
  measurementType : String
  executionOrder : Int
  id : Option Int
deriving Repr, DecidableEq

/-- The payload's `notificationChannels` (here `notificationEnabled` is a
pass-through with default `False`, unlike the quality-rule builder). -/
structure PayloadNotificationChannels where
  configuredNotificationGroupIds : List Int
  notifyOn : List String
  notifyOnSuccess : Bool
  severity : String
  alertsEnabled : Bool
  reNotifyFactor : Int
  notifyOnWarning : Bool
  notificationEnabled : Bool
deriving Repr, DecidableEq

/-- The payload's `sparkResourceConfig`. -/
structure PayloadSparkResourceConfig where
  additionalConfiguration : List String
  yunikorn : Option String
deriving Repr, DecidableEq

/-- The payload's `rule` object. -/
structure PayloadRule where
  subType : String
  enabled : Bool
  name : Option String
  description : Option String
  executionTimeoutInMinutes : Option Int
  totalExecutionTimeoutInMinutes : Option Int
  analyticsPipelineId : Option Int
  scheduleType : String
  jobSchedule : Option String
  segments : List String
  customSqlConfig : Option String
  policyScoreStrategy : String
  thresholdLevel : ThresholdLevel
  leftFilter : String
  leftSparkFilterSelectedColumns : List String
  leftSparkSQLFilterType : String
  rightFilter : String
  rightSparkFilterSelectedColumns : List String
  rightSparkSQLFilterType : String
  delayInMinutes : Option Int
  engineType : String
  leftEngineType : String
  rightEngineType : String
  joinType : String
  leftSparkSQLDynamicFilterVariableMapping : DynFilterMapping
  rightSparkSQLDynamicFilterVariableMapping : DynFilterMapping
  id : Option Int
  includeInQualityScore : Bool
  type : String
  scheduled : Bool
  leftBackingAsset : LeftAsset
  rightBackingAsset : RightAsset
  timeSecondsOffset : Int
  notificationChannels : PayloadNotificationChannels
  sparkResourceConfig : PayloadSparkResourceConfig
  resourceStrategyType : String
  selectedResourceInventory : String
  autoRetryEnabled : Bool
  policyGroups : List String
  labels : List Label
  tags : List String
deriving Repr, DecidableEq

/-- The full PUT payload (`cloningDetails` is hard-coded to `None`). -/
structure Payload where
  rule : PayloadRule
  items : List PayloadReconItem
  mappings : List PayloadMapping
  cloningDetails : Option String
  analyticsPipelineId : Option Int
deriving Repr, DecidableEq

/-- The per-mapping body of the `build_update_payload` loop. -/
def processMapping (label_mappings : List (String × String)) (mapping : Mapping) :
    PayloadMapping × List String × List String :=
  let left_col := mapping.leftColumnName.getD ""
  let right_col := mapping.rightColumnName.getD ""
  let mapping_key := get_column_key left_col right_col
  let r : List Label × List String × List String :=
    match alookup mapping_key label_mappings with
    | some original_rule_id =>
        if mapping_key ∈ truthyKeys mapping.labels then
          (mapping.labels, [], [mapping_key])
        else
          (mapping.labels ++ [{ key := some mapping_key, value := some original_rule_id }],
           [mapping_key], [])
    | none => (mapping.labels, [], [])
  ({ id := mapping.id,
     leftColumnName := left_col,
     operation := mapping.operation.getD "EQ",
     rightColumnName := right_col,
     useForJoining := mapping.useForJoining.getD false,
     reconciliationRuleId := mapping.reconciliationRuleId,
     isJoinColumnUsedForMeasure := mapping.isJoinColumnUsedForMeasure.getD false,
     ignoreNullValues := mapping.ignoreNullValues.getD false,
     weightage := mapping.weightage.getD 100,
     ruleVersion := mapping.ruleVersion,
     businessExplanation := mapping.businessExplanation.getD "",
     isWarning := mapping.isWarning.getD false,
     labels := r.1.map normalizeLabel,
     isArchived := mapping.isArchived.getD false,
     mappingType := mapping.mappingType.getD "AUTO" },
   r.2.1, r.2.2)

/-- The `rule` object of the payload, field for field from the source. -/
def buildPayloadRule (rule : Rule) : PayloadRule :=
  let left_backing_asset := rule.leftBackingAsset.getD { tableAssetId := none, id := none }
  let right_backing_asset := rule.rightBackingAsset.getD
    { tableAssetId := none, marker := none, id := none }
  let notification_channels := rule.notificationChannels.getD
    { configuredNotificationGroupIds := none, notifyOn := none, notifyOnSuccess := none,
      severity := none, alertsEnabled := none, reNotifyFactor := none,
      notifyOnWarning := none, notificationEnabled := none }
  let spark_resource_config := rule.sparkResourceConfig.getD
    { additionalConfiguration := none, yunikorn := none }
  { subType := rule.subType.getD "ASSET",
    enabled := rule.enabled.getD true,
    name := rule.name,
    description := rule.description,
    executionTimeoutInMinutes := rule.executionTimeoutInMinutes,
    totalExecutionTimeoutInMinutes := rule.totalExecutionTimeoutInMinutes,
    analyticsPipelineId := rule.analyticsPipelineId,
    scheduleType := rule.scheduleType.getD "FULL",
    jobSchedule := rule.jobSchedule,
    segments := rule.segments.getD [],
    customSqlConfig := rule.customSqlConfig,
    policyScoreStrategy := rule.policyScoreStrategy.getD "WEIGHTAGE",
    thresholdLevel := rule.thresholdLevel.getD { success := 100, warning := 70 },
    leftFilter := rule.leftFilter.getD "",
    leftSparkFilterSelectedColumns := rule.leftSparkFilterSelectedColumns.getD [],
    leftSparkSQLFilterType := rule.leftSparkSQLFilterType.getD "STATIC",
    rightFilter := rule.rightFilter.getD "",
    rightSparkFilterSelectedColumns := rule.rightSparkFilterSelectedColumns.getD [],
    rightSparkSQLFilterType := rule.rightSparkSQLFilterType.getD "STATIC",
    delayInMinutes := rule.delayInMinutes,
    engineType := rule.engineType.getD "SPARK",
    leftEngineType := rule.leftEngineType.getD "SPARK",
    rightEngineType := rule.rightEngineType.getD "SPARK",
    joinType := rule.joinType.getD "LEFT",
    leftSparkSQLDynamicFilterVariableMapping :=
      rule.leftSparkSQLDynamicFilterVariableMapping.getD { ruleName := rule.name, mapping := [] },
    rightSparkSQLDynamicFilterVariableMapping :=
      rule.rightSparkSQLDynamicFilterVariableMapping.getD { ruleName := rule.name, mapping := [] },
    id := rule.id,
    includeInQualityScore := rule.includeInQualityScore.getD true,
    type := rule.type.getD "EQUALITY",
    scheduled := rule.scheduled.getD false,
    leftBackingAsset := { tableAssetId := left_backing_asset.tableAssetId,
                          id := left_backing_asset.id },
    rightBackingAsset := { tableAssetId := right_backing_asset.tableAssetId,
                           marker := right_backing_asset.marker,
                           id := right_backing_asset.id },
    timeSecondsOffset := rule.timeSecondsOffset.getD 30,
    notificationChannels :=
      { configuredNotificationGroupIds := notification_channels.configuredNotificationGroupIds.getD [],
        notifyOn := notification_channels.notifyOn.getD [],
        notifyOnSuccess := notification_channels.notifyOnSuccess.getD false,
        severity := notification_channels.severity.getD "CRITICAL",
        alertsEnabled := notification_channels.alertsEnabled.getD true,
        reNotifyFactor := notification_channels.reNotifyFactor.getD 0,
        notifyOnWarning := notification_channels.notifyOnWarning.getD false,
        notificationEnabled := notification_channels.notificationEnabled.getD false },
    sparkResourceConfig :=
      { additionalConfiguration := spark_resource_config.additionalConfiguration.getD [],
        yunikorn := spark_resource_config.yunikorn },
    resourceStrategyType := rule.resourceStrategyType.getD "INVENTORY",
    selectedResourceInventory := rule.selectedResourceInventory.getD "Medium",
    autoRetryEnabled := rule.autoRetryEnabled.getD false,
    policyGroups := rule.policyGroups.getD [],
    labels := rule.labels.getD [],
    tags := rule.tags.getD [] }

/-- `build_update_payload` of `Step_3_Sync_Recon_Policy_Labels.py`.  This
module defines no override flag at all; the builder only ever appends. -/
def build_update_payload (policy_data : PolicyData)
    (label_mappings : List (String × String)) :
    Payload × List String × List String :=
  let results := policy_data.details.columnMappings.map (processMapping label_mappings)
  ({ rule := buildPayloadRule policy_data.rule,
     items := policy_data.details.items.map fun it =>
       { measurementType := it.measurementType.getD "EQUALITY",
         executionOrder := it.executionOrder.getD 1,
         id := it.id },
     mappings := results.map (·.1),
     cloningDetails := none,
     analyticsPipelineId := policy_data.rule.analyticsPipelineId },
   (results.map (·.2.1)).flatten,
   (results.map (·.2.2)).flatten)

/-- Reading one updated mapping back as a fetched mapping. -/
def mappingOfPayloadMapping (p : PayloadMapping) : Mapping :=
  { id := p.id, leftColumnName := some p.leftColumnName, operation := some p.operation,
    rightColumnName := some p.rightColumnName, useForJoining := some p.useForJoining,
    reconciliationRuleId := p.reconciliationRuleId,
    isJoinColumnUsedForMeasure := some p.isJoinColumnUsedForMeasure,
    ignoreNullValues := some p.ignoreNullValues, weightage := some p.weightage,
    ruleVersion := p.ruleVersion, businessExplanation := some p.businessExplanation,
    isWarning := some p.isWarning, labels := p.labels, isArchived := some p.isArchived,
    mappingType := some p.mappingType }

/-- Reading one updated `items` entry back as a fetched one. -/
def reconItemOfPayloadItem (p : PayloadReconItem) : ReconItem :=
  { measurementType := some p.measurementType, executionOrder := some p.executionOrder,
    id := p.id }

/-- Reading the payload's rule object back as a fetched rule. -/
def ruleOfPayloadRule (p : PayloadRule) : Rule :=
  { subType := some p.subType, enabled := some p.enabled, name := p.name,
    description := p.description,
    executionTimeoutInMinutes := p.executionTimeoutInMinutes,
    totalExecutionTimeoutInMinutes := p.totalExecutionTimeoutInMinutes,
    analyticsPipelineId := p.analyticsPipelineId, scheduleType := some p.scheduleType,
    jobSchedule := p.jobSchedule, segments := some p.segments,
    customSqlConfig := p.customSqlConfig, policyScoreStrategy := some p.policyScoreStrategy,
    thresholdLevel := some p.thresholdLevel, leftFilter := some p.leftFilter,
    leftSparkFilterSelectedColumns := some p.leftSparkFilterSelectedColumns,
    leftSparkSQLFilterType := some p.leftSparkSQLFilterType,
    rightFilter := some p.rightFilter,
    rightSparkFilterSelectedColumns := some p.rightSparkFilterSelectedColumns,
    rightSparkSQLFilterType := some p.rightSparkSQLFilterType,
    delayInMinutes := p.delayInMinutes, engineType := some p.engineType,
    leftEngineType := some p.leftEngineType, rightEngineType := some p.rightEngineType,
    joinType := some p.joinType,
    leftSparkSQLDynamicFilterVariableMapping := some p.leftSparkSQLDynamicFilterVariableMapping,
    rightSparkSQLDynamicFilterVariableMapping := some p.rightSparkSQLDynamicFilterVariableMapping,
    id := p.id, includeInQualityScore := some p.includeInQualityScore,
    type := some p.type, scheduled := some p.scheduled,
    leftBackingAsset := some p.leftBackingAsset,
    rightBackingAsset := some p.rightBackingAsset,
    timeSecondsOffset := some p.timeSecondsOffset,
    notificationChannels := some
      { configuredNotificationGroupIds := some p.notificationChannels.configuredNotificationGroupIds,
        notifyOn := some p.notificationChannels.notifyOn,
        notifyOnSuccess := some p.notificationChannels.notifyOnSuccess,
        severity := some p.notificationChannels.severity,
        alertsEnabled := some p.notificationChannels.alertsEnabled,
        reNotifyFactor := some p.notificationChannels.reNotifyFactor,
        notifyOnWarning := some p.notificationChannels.notifyOnWarning,
        notificationEnabled := some p.notificationChannels.notificationEnabled },
    sparkResourceConfig := some
      { additionalConfiguration := some p.sparkResourceConfig.additionalConfiguration,
        yunikorn := p.sparkResourceConfig.yunikorn },
    resourceStrategyType := some p.resourceStrategyType,
    selectedResourceInventory := some p.selectedResourceInventory,
    autoRetryEnabled := some p.autoRetryEnabled, policyGroups := some p.policyGroups,
    labels := some p.labels, tags := some p.tags }

/-- Reading a whole produced payload back as a fetched reconciliation policy
definition: the second-pass input of the idempotence property. -/
def policyDataOfPayload (p : Payload) : PolicyData :=
  { rule := ruleOfPayloadRule p.rule,
    details := { columnMappings := p.mappings.map mappingOfPayloadMapping,
                 items := p.items.map reconItemOfPayloadItem } }

/-- One row of `Recon_Policy_Rule_Details.csv` as parsed by `csv.DictReader`. -/
structure CsvRow where
  Policy_ID : Option String
  Policy_Name : Option String
  Rule_ID : Option String
  Recon_Type : Option String
  Left_Column_Name : Option String
  Right_Column_Name : Option String
deriving Repr, DecidableEq

/-- One loop iteration of the recon `read_existing_csv`: record the
`f"{policy_id}_{mapping_key}"` presence key, and the original rule id when
one is present. -/
def readCsvStep (acc : List String × PolicyLabels) (row : CsvRow) :
    List String × PolicyLabels :=
  if truthy row.Policy_ID ∧ truthy row.Left_Column_Name ∧ truthy row.Right_Column_Name then
    let mapping_key := get_column_key (row.Left_Column_Name.getD "")
      (row.Right_Column_Name.getD "")
    let keys := ((row.Policy_ID.getD "") ++ "_" ++ mapping_key) :: acc.1
    let pl := if truthy row.Rule_ID then
        insert2 acc.2 (row.Policy_ID.getD "") mapping_key (row.Rule_ID.getD "")
      else acc.2
    (keys, pl)
  else acc

/-- `read_existing_csv` of `Step_3_Sync_Recon_Policy_Labels.py`, restricted
to the derived state `(existing_mapping_keys, policy_labels)`. -/
def read_existing_csv (rows : List CsvRow) : List String × PolicyLabels :=
  rows.foldl readCsvStep ([], [])

/-- The ledger-append fragment of `main` (the `for mapping in new_mappings`
loop): a row is appended only when `f"{pid}_{mapping_key}"` is not yet in
`existing_mapping_keys`; only then is `policy_labels[pid][mapping_key]`
assigned. -/
def applyNewMappings (pid : String) :
    List String → PolicyLabels → List NewMapping →
    List NewMapping × List String × PolicyLabels
  | keys, pl, [] => ([], keys, pl)
  | keys, pl, m :: ms =>
    let mapping_key := get_column_key m.leftCol m.rightCol
    let full_key := pid ++ "_" ++ mapping_key
    if full_key ∈ keys then applyNewMappings pid keys pl ms
    else
      let rest := applyNewMappings pid (full_key :: keys)
        (insert2 pl pid mapping_key (pyStr m.ruleId)) ms
      (m :: rest.1, rest.2)

end SyncRecon

/-- An item with every optional field absent and no labels. -/
def itemBase : Item :=
  { id := none, measurementType := none, columnName := none, ruleExpression := none,
    executionOrder := none, weightage := none, businessExplanation := none, labels := [],
    isWarning := none, associatedDQRecommendationId := none, bulkPolicyDqRuleId := none,
    thresholdConfig := none, value := none }

namespace SyncDQ

/-- A fetched rule object with every field absent. -/
def ruleBase : Rule :=
  { subType := none, enabled := none, name := none, description := none, schedule := none,
    executionTimeoutInMinutes := none, totalExecutionTimeoutInMinutes := none,
    analyticsPipelineId := none, scheduleType := none, jobSchedule := none, segments := none,
    customSqlConfig := none, policyScoreStrategy := none, thresholdLevel := none, id := none,
    includeInQualityScore := none, type := none, scheduled := none, backingAsset := none,
    notificationChannels := none, sparkResourceConfig := none, policyGroups := none,
    labels := none, tags := none, additionalPersistedColumns := none, filter := none,
    sparkSQLFilterType := none, engineType := none }

/-- A fetched policy definition with no items. -/
def pdBase : PolicyData :=
  { rule := ruleBase, details := { items := [], transformUDFs := [] } }

end SyncDQ

namespace SyncRecon

/-- A fetched reconciliation rule object with every field absent. -/
def ruleBase : Rule :=
  { subType := none, enabled := none, name := none, description := none,
    executionTimeoutInMinutes := none, totalExecutionTimeoutInMinutes := none,
    analyticsPipelineId := none, scheduleType := none, jobSchedule := none, segments := none,
    customSqlConfig := none, policyScoreStrategy := none, thresholdLevel := none,
    leftFilter := none, leftSparkFilterSelectedColumns := none,
    leftSparkSQLFilterType := none, rightFilter := none,
    rightSparkFilterSelectedColumns := none, rightSparkSQLFilterType := none,
    delayInMinutes := none, engineType := none, leftEngineType := none,
    rightEngineType := none, joinType := none,
    leftSparkSQLDynamicFilterVariableMapping := none,
    rightSparkSQLDynamicFilterVariableMapping := none, id := none,
    includeInQualityScore := none, type := none, scheduled := none,
    leftBackingAsset := none, rightBackingAsset := none, timeSecondsOffset := none,
    notificationChannels := none, sparkResourceConfig := none,
    resourceStrategyType := none, selectedResourceInventory := none,
    autoRetryEnabled := none, policyGroups := none, labels := none, tags := none }

/-- A column mapping with every optional field absent and no labels. -/
def mappingBase : Mapping :=
  { id := none, leftColumnName := none, operation := none, rightColumnName := none,
    useForJoining := none, reconciliationRuleId := none,
    isJoinColumnUsedForMeasure := none, ignoreNullValues := none, weightage := none,
    ruleVersion := none, businessExplanation := none, isWarning := none, labels := [],
    isArchived := none, mappingType := none }

/-- A fetched reconciliation policy definition with no mappings. -/
def pdBase : PolicyData :=
  { rule := ruleBase, details := { columnMappings := [], items := [] } }

end SyncRecon

/-- Which items the quality-rule diff engine flags as new against an empty
baseline: exactly those carrying their category's discriminating field
(a non-empty expression for CUSTOM/SQL_METRIC, a truthy `value.udfId` for
UDF_PREDICATE, any SIZE_CHECK, a non-empty column name otherwise). -/
def SyncDQ.newOnEmptyBaseline (item : Item) : Bool :=
  let mt := item.measurementType.getD ""
  if mt = "CUSTOM" then item.ruleExpression.getD "" ≠ ""
  else if mt = "SQL_METRIC" then item.ruleExpression.getD "" ≠ ""
  else if mt = "UDF_PREDICATE" then
    match item.value with
    | some v => v.udfId.getD "" ≠ ""
    | none => false
  else if mt = "SIZE_CHECK" then true
  else item.columnName.getD "" ≠ ""

/-- The identity key the reconciliation builder computes for a mapping
(the first three lines of its loop body). -/
def SyncRecon.mappingKey (m : SyncRecon.Mapping) : String :=
  SyncRecon.get_column_key (m.leftColumnName.getD "") (m.rightColumnName.getD "")

/-- A CUSTOM check with an absent `ruleExpression` and remote id 7. -/
def itemC7 : Item :=
  { itemBase with measurementType := some "CUSTOM", id := some "7" }

/-- A CUSTOM check with expression `"x > 0"` and remote id 8. -/
def itemC8 : Item :=
  { itemBase with
    measurementType := some "CUSTOM"
    id := some "8"
    ruleExpression := some "x > 0" }

/-- A latest snapshot holding only `itemC7`. -/
def SyncDQ.pdLatestC7 : SyncDQ.PolicyData :=
  { rule := SyncDQ.ruleBase, details := { items := [itemC7], transformUDFs := [] } }

/-- A latest snapshot holding `itemC7` and `itemC8`. -/
def SyncDQ.pdLatestC : SyncDQ.PolicyData :=
  { rule := SyncDQ.ruleBase, details := { items := [itemC7, itemC8], transformUDFs := [] } }

/-- A fetched notification-channels object whose only present field is
`notificationEnabled = false`. -/
def SyncDQ.ncEnabledFalse : SyncDQ.NotificationChannels :=
  { configuredNotificationGroupIds := none, notifyOn := none, notifyOnSuccess := none,
    severity := none, alertsEnabled := none, reNotifyFactor := none,
    notifyOnWarning := none, notificationEnabled := some false }

/-- A fetched policy whose rule carries `scheduleType = "FULL"`,
`analyticsPipelineId = 7` and `notificationEnabled = false`. -/
def SyncDQ.pdC2 : SyncDQ.PolicyData :=
  { rule := { SyncDQ.ruleBase with
      scheduleType := some "FULL"
      analyticsPipelineId := some 7
      notificationChannels := some SyncDQ.ncEnabledFalse },
    details := { items := [], transformUDFs := [] } }

/-- A SIZE_CHECK item that already carries its identity label. -/
def itemSC : Item :=
  { itemBase with
    measurementType := some "SIZE_CHECK"
    labels := [{ key := some "SIZE_CHECK", value := some "1" }] }

/-- A ledger row recording check 101 under key `"K"` of policy `"P"`. -/
def SyncDQ.csvRow101 : SyncDQ.CsvRow :=
  { Policy_ID := some "P", Policy_Name := some "N", Rule_ID := some "101",
    Rule_Type := some "CUSTOM", Column_Name := some "K" }

/-- A diff result rediscovering key `"K"` of policy `"P"` under the new
remote id 202. -/
def SyncDQ.newRule202 : SyncDQ.NewRule :=
  { policyId := "P", policyName := "N", ruleId := some "202",
    ruleType := "CUSTOM", columnName := "K" }

/-- A rediscovered reconciliation mapping for columns `a`/`b` of policy
`"P"` with remote id 5. -/
def SyncRecon.newMapping5 : SyncRecon.NewMapping :=
  { policyId := "P", policyName := "N", ruleId := some "5",
    reconType := "EQUALITY", leftCol := "a", rightCol := "b" }

/-- The presence sets extracted from a snapshot with no items. -/
def SyncDQ.emptyItemsInfo : SyncDQ.ItemsInfo :=
  { column_names := [], custom_expressions := [], sql_metric_expressions := [],
    udf_predicate_ids := [], has_size_check := false, items := [] }

theorem normalizeLabel_eq (l : Label) : normalizeLabel l = l := rfl

theorem map_normalizeLabel (ls : List Label) : ls.map normalizeLabel = ls := by
  induction ls with
  | nil => rfl
  | cons a l ih =>
    rw [List.map_cons, ih]
    rfl

theorem truthyKeys_append (a b : List Label) :
    truthyKeys (a ++ b) = truthyKeys a ++ truthyKeys b := by
  simp [truthyKeys]

theorem mem_truthyKeys_single (k v : String) (h : k ≠ "") :
    k ∈ truthyKeys [{ key := some k, value := some v }] := by
  simp [truthyKeys, h]

theorem lookup2_insert2_same_pid_ne (pl : PolicyLabels) (pid k2 k v : String)
    (h : k2 ≠ k) : lookup2 (insert2 pl pid k2 v) pid k = lookup2 pl pid k := by
  simp [lookup2, insert2, alookup, h]

theorem lookup2_insert2_other_pid (pl : PolicyLabels) (pid2 pid k2 k v : String)
    (h : pid2 ≠ pid) : lookup2 (insert2 pl pid2 k2 v) pid k = lookup2 pl pid k := by
  simp [lookup2, insert2, alookup, h]

/-- C3 counterexample: for the item
`{measurementType: "ABSOLUTE", columnName: "amount"}` the harvest-time key
derivation returns the bare column name `"amount"` while the sync-time one
returns `"ABSOLUTE-amount"` — the two functions are not byte-identical on a
COLUMN_DEFAULT-style item that carries both fields. -/
theorem c3_counterexample :
    FetchDetails.get_column_name (fun _ => "")
      { itemBase with measurementType := some "ABSOLUTE", columnName := some "amount" }
      = "amount"
    ∧ SyncDQ.get_column_name (fun _ => "")
      { itemBase with measurementType := some "ABSOLUTE", columnName := some "amount" }
      = "ABSOLUTE-amount"
    ∧ "amount" ≠ "ABSOLUTE-amount" := by
  refine ⟨by decide, by decide, by decide⟩

/-- C3 amended: the two `get_column_name` functions agree (for every digest
function) on every CUSTOM, SQL_METRIC, UDF_PREDICATE or SIZE_CHECK item and
on every item with no measurement type but a column name; on a
COLUMN_DEFAULT item with both fields present they differ as the
counterexample shows: the harvest-time one returns the bare column name and
the sync-time one returns `"{measurementType}-{columnName}"`. -/
theorem c3_keys_amended (md5hex : String → String) (item : Item) :
    ((item.measurementType.getD "" = "CUSTOM" ∨ item.measurementType.getD "" = "SQL_METRIC"
        ∨ item.measurementType.getD "" = "UDF_PREDICATE"
        ∨ item.measurementType.getD "" = "SIZE_CHECK"
        ∨ (item.measurementType.getD "" = "" ∧ item.columnName.getD "" ≠ "")) →
      FetchDetails.get_column_name md5hex item = SyncDQ.get_column_name md5hex item)
    ∧ (item.measurementType.getD "" ≠ "CUSTOM" → item.measurementType.getD "" ≠ "SQL_METRIC" →
       item.measurementType.getD "" ≠ "UDF_PREDICATE" → item.measurementType.getD "" ≠ "SIZE_CHECK" →
       item.measurementType.getD "" ≠ "" → item.columnName.getD "" ≠ "" →
      FetchDetails.get_column_name md5hex item = item.columnName.getD ""
      ∧ SyncDQ.get_column_name md5hex item
          = item.measurementType.getD "" ++ "-" ++ item.columnName.getD "") := by
  constructor
  · intro h
    rcases h with h | h | h | h | ⟨h, hc⟩
    · simp [FetchDetails.get_column_name, SyncDQ.get_column_name,
        FetchDetails.compute_hash, SyncDQ.compute_hash, h]
    · simp [FetchDetails.get_column_name, SyncDQ.get_column_name,
        FetchDetails.compute_hash, SyncDQ.compute_hash, h]
    · simp [FetchDetails.get_column_name, SyncDQ.get_column_name, h]
    · simp [FetchDetails.get_column_name, SyncDQ.get_column_name, h]
    · simp [FetchDetails.get_column_name, SyncDQ.get_column_name, h, hc]
  · intro h1 h2 h3 h4 h5 h6
    constructor <;>
      simp [FetchDetails.get_column_name, SyncDQ.get_column_name, h1, h2, h3, h4, h5, h6]

/-- C3 witness: a concrete CUSTOM item on which the two derivations agree. -/
theorem c3_keys_witness :
    FetchDetails.get_column_name (fun _ => "0123456789abcdef")
      { itemBase with measurementType := some "CUSTOM", ruleExpression := some "amount > 0" }
      = SyncDQ.get_column_name (fun _ => "0123456789abcdef")
      { itemBase with measurementType := some "CUSTOM", ruleExpression := some "amount > 0" } :=
  (c3_keys_amended (fun _ => "0123456789abcdef")
    { itemBase with measurementType := some "CUSTOM", ruleExpression := some "amount > 0" }).1
    (Or.inl (by decide))

/-- C9: with an absent or empty `ruleExpression`, `compute_hash` returns the
five-character literal `"empty"` (not an 8-hex digest), in both files; the
derived identity key of such a CUSTOM (resp. SQL_METRIC) check is the
literal `"CUSTOM-empty"` (resp. `"SQL_METRIC-empty"`) under both
derivations, so any two empty-expression checks of the same kind collide on
one key. -/
theorem c9_empty_expression_key (md5hex : String → String) (item item2 : Item) :
    (FetchDetails.compute_hash md5hex "" = "empty"
      ∧ SyncDQ.compute_hash md5hex "" = "empty"
      ∧ String.length "empty" = 5)
    ∧ (item.measurementType.getD "" = "CUSTOM" → item.ruleExpression.getD "" = "" →
        FetchDetails.get_column_name md5hex item = "CUSTOM-empty"
        ∧ SyncDQ.get_column_name md5hex item = "CUSTOM-empty")
    ∧ (item.measurementType.getD "" = "SQL_METRIC" → item.ruleExpression.getD "" = "" →
        FetchDetails.get_column_name md5hex item = "SQL_METRIC-empty"
        ∧ SyncDQ.get_column_name md5hex item = "SQL_METRIC-empty")
    ∧ (item.measurementType.getD "" = item2.measurementType.getD "" →
       item.ruleExpression.getD "" = "" → item2.ruleExpression.getD "" = "" →
       (item.measurementType.getD "" = "CUSTOM" ∨ item.measurementType.getD "" = "SQL_METRIC") →
        SyncDQ.get_column_name md5hex item = SyncDQ.get_column_name md5hex item2) := by
  refine ⟨⟨by simp [FetchDetails.compute_hash], by simp [SyncDQ.compute_hash], by decide⟩,
    ?_, ?_, ?_⟩
  · intro hm he
    constructor <;>
      simp [FetchDetails.get_column_name, SyncDQ.get_column_name,
        FetchDetails.compute_hash, SyncDQ.compute_hash, hm, he]
  · intro hm he
    constructor <;>
      simp [FetchDetails.get_column_name, SyncDQ.get_column_name,
        FetchDetails.compute_hash, SyncDQ.compute_hash, hm, he]
  · intro hmm he he2 hk
    rcases hk with hk | hk <;>
      simp [SyncDQ.get_column_name, SyncDQ.compute_hash, hk, ← hmm, he, he2]

/-- C9 witness: a concrete empty-expression CUSTOM check. -/
theorem c9_empty_expression_witness :
    FetchDetails.get_column_name (fun _ => "0123456789abcdef")
      { itemBase with measurementType := some "CUSTOM" } = "CUSTOM-empty"
    ∧ SyncDQ.get_column_name (fun _ => "0123456789abcdef")
      { itemBase with measurementType := some "CUSTOM" } = "CUSTOM-empty" :=
  (c9_empty_expression_key (fun _ => "0123456789abcdef")
    { itemBase with measurementType := some "CUSTOM" } itemBase).2.1 (by decide) (by decide)

theorem filterMap_if_eq_filter_map {α β : Type} (p : α → Bool) (g : α → β) (l : List α) :
    (l.filterMap fun a => if p a then some (g a) else none) = (l.filter p).map g := by
  induction l with
  | nil => rfl
  | cons a l ih =>
    by_cases h : p a <;> simp [List.filterMap_cons, List.filter_cons, h, ih]

theorem is_new_empty_info (it : Item) :
    SyncDQ.is_new SyncDQ.emptyItemsInfo it = SyncDQ.newOnEmptyBaseline it := by
  unfold SyncDQ.is_new SyncDQ.newOnEmptyBaseline SyncDQ.emptyItemsInfo
  rcases it.value with _ | v
  · simp
  · rcases hv : v.udfId with _ | u <;> simp [hv]

theorem extract_items_info_empty (baseline : SyncDQ.PolicyData)
    (h : baseline.details.items = []) :
    SyncDQ.extract_items_info baseline = SyncDQ.emptyItemsInfo := by
  simp [SyncDQ.extract_items_info, SyncDQ.emptyItemsInfo, h]

/-- C4 counterexample: against an empty baseline, a latest snapshot whose
single item is a CUSTOM check with no `ruleExpression` yields an empty diff —
not every item of the latest snapshot is classified as new. -/
theorem c4_counterexample :
    SyncDQ.find_new_rules (fun _ => "") (SyncDQ.extract_items_info SyncDQ.pdBase)
      (SyncDQ.extract_items_info SyncDQ.pdLatestC7) "P" "N" = []
    ∧ SyncDQ.pdLatestC7.details.items.length = 1 := by
  refine ⟨by decide, by decide⟩

/-- C4 amended: against a baseline snapshot with no items, `find_new_rules`
classifies as new exactly the latest-snapshot items that carry their
category's discriminating field (`newOnEmptyBaseline`): every non-empty
CUSTOM/SQL_METRIC expression, every UDF_PREDICATE with a truthy
`value.udfId`, every SIZE_CHECK, and every other item with a non-empty
column name; items lacking that field are not reported. -/
theorem c4_empty_baseline_amended (md5hex : String → String)
    (baseline latest : SyncDQ.PolicyData) (pid pname : String)
    (h : baseline.details.items = []) :
    SyncDQ.find_new_rules md5hex (SyncDQ.extract_items_info baseline)
      (SyncDQ.extract_items_info latest) pid pname
      = (latest.details.items.filter SyncDQ.newOnEmptyBaseline).map fun it =>
          { policyId := pid, policyName := pname, ruleId := it.id,
            ruleType := it.measurementType.getD "",
            columnName := SyncDQ.get_column_name md5hex it } := by
  rw [extract_items_info_empty baseline h]
  unfold SyncDQ.find_new_rules
  have hitems : (SyncDQ.extract_items_info latest).items = latest.details.items := rfl
  rw [hitems, ← filterMap_if_eq_filter_map]
  simp only [is_new_empty_info]

/-- C4 witness: a concrete two-item latest snapshot against a concrete empty
baseline; only the item with a non-empty expression is reported. -/
theorem c4_empty_baseline_witness :
    SyncDQ.find_new_rules (fun _ => "ffffffff") (SyncDQ.extract_items_info SyncDQ.pdBase)
      (SyncDQ.extract_items_info SyncDQ.pdLatestC) "P" "N"
      = ((SyncDQ.pdLatestC.details.items.filter SyncDQ.newOnEmptyBaseline).map fun it =>
          { policyId := "P", policyName := "N", ruleId := it.id,
            ruleType := it.measurementType.getD "",
            columnName := SyncDQ.get_column_name (fun _ => "ffffffff") it }) :=
  c4_empty_baseline_amended (fun _ => "ffffffff") SyncDQ.pdBase SyncDQ.pdLatestC "P" "N" rfl

theorem processItem_override_labels (md5hex : String → String)
    (lm : List (String × String)) (it : Item) :
    (SyncDQ.processItem md5hex true lm it).1.labels
      = match alookup (SyncDQ.get_column_name md5hex it) lm with
        | some v => [{ key := some (SyncDQ.get_column_name md5hex it), value := some v }]
        | none => [] := by
  unfold SyncDQ.processItem
  rcases h : alookup (SyncDQ.get_column_name md5hex it) lm with _ | v <;>
    simp [h, map_normalizeLabel, normalizeLabel_eq]

/-- C7: in override mode every item of the payload ends with exactly the one
label implied by the ledger map when its identity key is present there, and
with no labels at all otherwise; every pre-existing label is discarded. -/
theorem c7_override_labels (md5hex : String → String) (pd : SyncDQ.PolicyData)
    (lm : List (String × String)) :
    ((SyncDQ.build_update_payload md5hex true pd lm).1.items.map fun p => p.labels)
      = pd.details.items.map fun it =>
          match alookup (SyncDQ.get_column_name md5hex it) lm with
          | some v => [{ key := some (SyncDQ.get_column_name md5hex it), value := some v }]
          | none => [] := by
  simp [SyncDQ.build_update_payload, List.map_map, Function.comp_def,
    processItem_override_labels]

theorem processMapping_labels (lm : List (String × String)) (m : SyncRecon.Mapping) :
    (SyncRecon.processMapping lm m).1.labels
      = m.labels ++
        (match alookup (SyncRecon.mappingKey m) lm with
         | some v =>
           if SyncRecon.mappingKey m ∈ truthyKeys m.labels then []
           else [{ key := some (SyncRecon.mappingKey m), value := some v }]
         | none => []) := by
  unfold SyncRecon.processMapping
  rcases h : alookup (SyncRecon.mappingKey m) lm with _ | v
  · simp [SyncRecon.mappingKey, SyncRecon.get_column_key] at h
    simp [h, SyncRecon.mappingKey, SyncRecon.get_column_key, map_normalizeLabel]
  · by_cases hm : SyncRecon.mappingKey m ∈ truthyKeys m.labels <;>
      · simp [SyncRecon.mappingKey, SyncRecon.get_column_key] at h hm ⊢
        simp [h, hm, map_normalizeLabel, normalizeLabel_eq]

/-- C10: the reconciliation-category builder (which defines no override flag
at all) preserves every pre-existing label of every column mapping in place
and at most appends the single ledger-implied label; it never removes one. -/
theorem c10_recon_no_override (pd : SyncRecon.PolicyData) (lm : List (String × String)) :
    ((SyncRecon.build_update_payload pd lm).1.mappings.map fun p => p.labels)
      = pd.details.columnMappings.map fun m =>
          m.labels ++
          (match alookup (SyncRecon.mappingKey m) lm with
           | some v =>
             if SyncRecon.mappingKey m ∈ truthyKeys m.labels then []
             else [{ key := some (SyncRecon.mappingKey m), value := some v }]
           | none => []) := by
  simp [SyncRecon.build_update_payload, List.map_map, Function.comp_def,
    processMapping_labels]

theorem processItem_normal_labels (md5hex : String → String)
    (lm : List (String × String)) (it : Item) :
    (SyncDQ.processItem md5hex false lm it).1.labels
      = it.labels ++
        (match alookup (SyncDQ.get_column_name md5hex it) lm with
         | some v =>
           if SyncDQ.get_column_name md5hex it ∈ truthyKeys it.labels then []
           else [{ key := some (SyncDQ.get_column_name md5hex it), value := some v }]
         | none => []) := by
  unfold SyncDQ.processItem
  rcases h : alookup (SyncDQ.get_column_name md5hex it) lm with _ | v
  · simp [h, map_normalizeLabel]
  · by_cases hm : SyncDQ.get_column_name md5hex it ∈ truthyKeys it.labels <;>
      simp [h, hm, map_normalizeLabel, normalizeLabel_eq]

/-- C6: any label carried by an updated item or mapping is either one of its
pre-existing labels or is the single ledger label, whose value is the
ledger's original id for the item's identity key — never the row's current
remote id; this holds in both categories and, for quality rules, in both
modes. -/
theorem c6_label_value_from_ledger :
    (∀ (md5hex : String → String) (override : Bool) (lm : List (String × String))
       (it : Item) (l : Label),
      l ∈ (SyncDQ.processItem md5hex override lm it).1.labels →
      l ∈ it.labels
      ∨ ∃ v, alookup (SyncDQ.get_column_name md5hex it) lm = some v
          ∧ l = { key := some (SyncDQ.get_column_name md5hex it), value := some v })
    ∧ (∀ (lm : List (String × String)) (m : SyncRecon.Mapping) (l : Label),
      l ∈ (SyncRecon.processMapping lm m).1.labels →
      l ∈ m.labels
      ∨ ∃ v, alookup (SyncRecon.mappingKey m) lm = some v
          ∧ l = { key := some (SyncRecon.mappingKey m), value := some v }) := by
  constructor
  · intro md5hex override lm it l hl
    cases override
    · rw [processItem_normal_labels] at hl
      rcases List.mem_append.mp hl with h | h
      · exact Or.inl h
      · rcases hk : alookup (SyncDQ.get_column_name md5hex it) lm with _ | v <;>
          rw [hk] at h
        · simp at h
        · refine Or.inr ⟨v, rfl, ?_⟩
          by_cases hm : SyncDQ.get_column_name md5hex it ∈ truthyKeys it.labels <;>
            simp [hm] at h
          exact h
    · rw [processItem_override_labels] at hl
      rcases hk : alookup (SyncDQ.get_column_name md5hex it) lm with _ | v <;>
        rw [hk] at hl
      · simp at hl
      · simp at hl
        exact Or.inr ⟨v, rfl, hl⟩
  · intro lm m l hl
    rw [processMapping_labels] at hl
    rcases List.mem_append.mp hl with h | h
    · exact Or.inl h
    · rcases hk : alookup (SyncRecon.mappingKey m) lm with _ | v <;> rw [hk] at h
      · simp at h
      · refine Or.inr ⟨v, rfl, ?_⟩
        by_cases hm : SyncRecon.mappingKey m ∈ truthyKeys m.labels <;> simp [hm] at h
        exact h

/-- C6 witness: a concrete SIZE_CHECK item whose ledger-matched label is
added; its value is the ledger's original id `"9"`. -/
theorem c6_label_value_witness :
    ({ key := some "SIZE_CHECK", value := some "9" } : Label)
      ∈ (SyncDQ.processItem (fun _ => "") false [("SIZE_CHECK", "9")]
          { itemBase with measurementType := some "SIZE_CHECK" }).1.labels
    ∧ (({ key := some "SIZE_CHECK", value := some "9" } : Label)
        ∈ ({ itemBase with measurementType := some "SIZE_CHECK" } : Item).labels
      ∨ ∃ v, alookup (SyncDQ.get_column_name (fun _ => "")
            { itemBase with measurementType := some "SIZE_CHECK" }) [("SIZE_CHECK", "9")] = some v
          ∧ ({ key := some "SIZE_CHECK", value := some "9" } : Label)
            = { key := some (SyncDQ.get_column_name (fun _ => "")
                  { itemBase with measurementType := some "SIZE_CHECK" }), value := some v }) :=
  ⟨by decide, c6_label_value_from_ledger.1 (fun _ => "") false [("SIZE_CHECK", "9")]
    { itemBase with measurementType := some "SIZE_CHECK" }
    { key := some "SIZE_CHECK", value := some "9" } (by decide)⟩

/-- C2 counterexample: the quality-rule builder does not carry every
non-label field through unchanged — for a fetched definition with
`scheduleType = "FULL"`, `analyticsPipelineId = 7` and
`notificationEnabled = false`, the payload holds `"RECENT"`, `null` and
`true` instead. -/
theorem c2_counterexample :
    SyncDQ.pdC2.rule.scheduleType = some "FULL"
    ∧ (SyncDQ.build_update_payload (fun _ => "") false SyncDQ.pdC2 []).1.rule.scheduleType
        = "RECENT"
    ∧ SyncDQ.pdC2.rule.analyticsPipelineId = some 7
    ∧ (SyncDQ.build_update_payload (fun _ => "") false SyncDQ.pdC2 []).1.rule.analyticsPipelineId
        = none
    ∧ (SyncDQ.pdC2.rule.notificationChannels.map fun nc => nc.notificationEnabled)
        = some (some false)
    ∧ (SyncDQ.build_update_payload (fun _ => "") false
        SyncDQ.pdC2 []).1.rule.notificationChannels.notificationEnabled = true
    ∧ ("FULL" : String) ≠ "RECENT" := by
  refine ⟨rfl, rfl, rfl, rfl, rfl, rfl, by decide⟩

/-- C2 amended: reconciliation's write-back payload carries every modeled
field of the remote definition through from the fetched value (with the
source's fixed defaults only where the fetched field is absent), and only
the labels collection of each item/mapping is rewritten — except that the
quality-rule builder forces `analyticsPipelineId` to `null`, `scheduleType`
to `"RECENT"` and `notificationChannels.notificationEnabled` to `true`
(and omits an empty `ruleExpression`).  Stated as: (1) the quality-rule
payload rule on a fully-present fetched rule equals it except those three
fields; (2) every non-label field of an updated item is the item's own
fetched value; (3) the quality-rule payload's top level passes
`transformUDFs`/`engineType` through; (4) the reconciliation payload rule on
a fully-present fetched rule equals it exactly, `scheduleType`,
`analyticsPipelineId` and `notificationEnabled` included; (5) every
non-label field of an updated mapping is the mapping's own fetched value;
(6) the reconciliation payload's items and top level pass through. -/
theorem c2_passthrough_amended :
    (∀ (sT : String) (en : Bool) (nm ds sch : String) (etm ttm apid : Int) (sty js : String)
       (seg : List String) (csc pss : String) (tls tlw rid : Int) (iqs : Bool)
       (ty : String) (scd : Bool) (bta bid : Int) (n1 : List Int) (n2 : List String)
       (n3 : Bool) (n4 : String) (n5 : Bool) (n6 : Int) (n7 n8 : Bool) (src : String)
       (pg : List String) (lbs : List Label) (tg apc : List String) (flt ssft eng : String),
      SyncDQ.buildPayloadRule
        { subType := some sT
          enabled := some en
          name := some nm
          description := some ds
          schedule := some sch
          executionTimeoutInMinutes := some etm
          totalExecutionTimeoutInMinutes := some ttm
          analyticsPipelineId := some apid
          scheduleType := some sty
          jobSchedule := some js
          segments := some seg
          customSqlConfig := some csc
          policyScoreStrategy := some pss
          thresholdLevel := some { success := tls, warning := tlw }
          id := some rid
          includeInQualityScore := some iqs
          type := some ty
          scheduled := some scd
          backingAsset := some { tableAssetId := some bta, id := some bid }
          notificationChannels := some
            { configuredNotificationGroupIds := some n1
              notifyOn := some n2
              notifyOnSuccess := some n3
              severity := some n4
              alertsEnabled := some n5
              reNotifyFactor := some n6
              notifyOnWarning := some n7
              notificationEnabled := some n8 }
          sparkResourceConfig := some src
          policyGroups := some pg
          labels := some lbs
          tags := some tg
          additionalPersistedColumns := some apc
          filter := some flt
          sparkSQLFilterType := some ssft
          engineType := some eng }
        = { subType := sT
            enabled := en
            name := some nm
            description := some ds
            schedule := sch
            executionTimeoutInMinutes := some etm
            totalExecutionTimeoutInMinutes := some ttm
            analyticsPipelineId := none
            scheduleType := "RECENT"
            jobSchedule := some js
            segments := seg
            customSqlConfig := some csc
            policyScoreStrategy := pss
            thresholdLevel := { success := tls, warning := tlw }
            id := some rid
            includeInQualityScore := iqs
            type := ty
            scheduled := scd
            backingAsset := { tableAssetId := some bta, id := some bid }
            notificationChannels :=
              { configuredNotificationGroupIds := n1
                notifyOn := n2
                notifyOnSuccess := n3
                severity := n4
                alertsEnabled := n5
                reNotifyFactor := n6
                notifyOnWarning := n7
                notificationEnabled := true }
            sparkResourceConfig := some src
            policyGroups := pg
            labels := lbs
            tags := tg
            additionalPersistedColumns := apc
            filter := some flt
            sparkSQLFilterType := ssft })
    ∧ (∀ (md5hex : String → String) (override : Bool) (lm : List (String × String))
         (it : Item),
        (SyncDQ.processItem md5hex override lm it).1.measurementType = it.measurementType
        ∧ (SyncDQ.processItem md5hex override lm it).1.columnName = it.columnName.getD ""
        ∧ (SyncDQ.processItem md5hex override lm it).1.executionOrder = it.executionOrder
        ∧ (SyncDQ.processItem md5hex override lm it).1.weightage = it.weightage
        ∧ (SyncDQ.processItem md5hex override lm it).1.businessExplanation
            = it.businessExplanation.getD ""
        ∧ (SyncDQ.processItem md5hex override lm it).1.isWarning = it.isWarning.getD false
        ∧ (SyncDQ.processItem md5hex override lm it).1.associatedDQRecommendationId
            = it.associatedDQRecommendationId
        ∧ (SyncDQ.processItem md5hex override lm it).1.bulkPolicyDqRuleId
            = it.bulkPolicyDqRuleId
        ∧ (SyncDQ.processItem md5hex override lm it).1.thresholdConfig = it.thresholdConfig
        ∧ (SyncDQ.processItem md5hex override lm it).1.value = it.value
        ∧ (SyncDQ.processItem md5hex override lm it).1.id = it.id
        ∧ (SyncDQ.processItem md5hex override lm it).1.ruleExpression
            = (if it.ruleExpression.getD "" = "" then none else it.ruleExpression))
    ∧ (∀ (md5hex : String → String) (override : Bool) (pd : SyncDQ.PolicyData)
         (lm : List (String × String)),
        (SyncDQ.build_update_payload md5hex override pd lm).1.transformUDFs
            = pd.details.transformUDFs
        ∧ (SyncDQ.build_update_payload md5hex override pd lm).1.engineType
            = pd.rule.engineType.getD "JDBC_SQL"
        ∧ (SyncDQ.build_update_payload md5hex override pd lm).1.rule
            = SyncDQ.buildPayloadRule pd.rule)
    ∧ (∀ (sT : String) (en : Bool) (nm ds : String) (etm ttm apid : Int) (sty js : String)
         (seg : List String) (csc pss : String) (tls tlw : Int)
         (lf : String) (lfsc : List String) (lsft rf : String) (rfsc : List String)
         (rsft : String) (dim : Int) (eng leng reng jt : String)
         (dlrn : String) (dlm : List String) (drrn : String) (drm : List String)
         (rid : Int) (iqs : Bool) (ty : String) (scd : Bool)
         (lta lid rta : Int) (rmk : String) (rid2 tso : Int)
         (n1 : List Int) (n2 : List String) (n3 : Bool) (n4 : String) (n5 : Bool)
         (n6 : Int) (n7 n8 : Bool) (ac : List String) (yk : String)
         (rst sri : String) (are : Bool) (pg : List String) (lbs : List Label)
         (tg : List String),
      SyncRecon.buildPayloadRule
        { subType := some sT
          enabled := some en
          name := some nm
          description := some ds
          executionTimeoutInMinutes := some etm
          totalExecutionTimeoutInMinutes := some ttm
          analyticsPipelineId := some apid
          scheduleType := some sty
          jobSchedule := some js
          segments := some seg
          customSqlConfig := some csc
          policyScoreStrategy := some pss
          thresholdLevel := some { success := tls, warning := tlw }
          leftFilter := some lf
          leftSparkFilterSelectedColumns := some lfsc
          leftSparkSQLFilterType := some lsft
          rightFilter := some rf
          rightSparkFilterSelectedColumns := some rfsc
          rightSparkSQLFilterType := some rsft
          delayInMinutes := some dim
          engineType := some eng
          leftEngineType := some leng
          rightEngineType := some reng
          joinType := some jt
          leftSparkSQLDynamicFilterVariableMapping := some { ruleName := some dlrn, mapping := dlm }
          rightSparkSQLDynamicFilterVariableMapping := some { ruleName := some drrn, mapping := drm }
          id := some rid
          includeInQualityScore := some iqs
          type := some ty
          scheduled := some scd
          leftBackingAsset := some { tableAssetId := some lta, id := some lid }
          rightBackingAsset := some { tableAssetId := some rta, marker := some rmk, id := some rid2 }
          timeSecondsOffset := some tso
          notificationChannels := some
            { configuredNotificationGroupIds := some n1
              notifyOn := some n2
              notifyOnSuccess := some n3
              severity := some n4
              alertsEnabled := some n5
              reNotifyFactor := some n6
              notifyOnWarning := some n7
              notificationEnabled := some n8 }
          sparkResourceConfig := some { additionalConfiguration := some ac, yunikorn := some yk }
          resourceStrategyType := some rst
          selectedResourceInventory := some sri
          autoRetryEnabled := some are
          policyGroups := some pg
          labels := some lbs
          tags := some tg }
        = { subType := sT
            enabled := en
            name := some nm
            description := some ds
            executionTimeoutInMinutes := some etm
            totalExecutionTimeoutInMinutes := some ttm
            analyticsPipelineId := some apid
            scheduleType := sty
            jobSchedule := some js
            segments := seg
            customSqlConfig := some csc
            policyScoreStrategy := pss
            thresholdLevel := { success := tls, warning := tlw }
            leftFilter := lf
            leftSparkFilterSelectedColumns := lfsc
            leftSparkSQLFilterType := lsft
            rightFilter := rf
            rightSparkFilterSelectedColumns := rfsc
            rightSparkSQLFilterType := rsft
            delayInMinutes := some dim
            engineType := eng
            leftEngineType := leng
            rightEngineType := reng
            joinType := jt
            leftSparkSQLDynamicFilterVariableMapping := { ruleName := some dlrn, mapping := dlm }
            rightSparkSQLDynamicFilterVariableMapping := { ruleName := some drrn, mapping := drm }
            id := some rid
            includeInQualityScore := iqs
            type := ty
            scheduled := scd
            leftBackingAsset := { tableAssetId := some lta, id := some lid }
            rightBackingAsset := { tableAssetId := some rta, marker := some rmk, id := some rid2 }
            timeSecondsOffset := tso
            notificationChannels :=
              { configuredNotificationGroupIds := n1
                notifyOn := n2
                notifyOnSuccess := n3
                severity := n4
                alertsEnabled := n5
                reNotifyFactor := n6
                notifyOnWarning := n7
                notificationEnabled := n8 }
            sparkResourceConfig := { additionalConfiguration := ac, yunikorn := some yk }
            resourceStrategyType := rst
            selectedResourceInventory := sri
            autoRetryEnabled := are
            policyGroups := pg
            labels := lbs
            tags := tg })
    ∧ (∀ (lm : List (String × String)) (m : SyncRecon.Mapping),
        (SyncRecon.processMapping lm m).1.id = m.id
        ∧ (SyncRecon.processMapping lm m).1.leftColumnName = m.leftColumnName.getD ""
        ∧ (SyncRecon.processMapping lm m).1.operation = m.operation.getD "EQ"
        ∧ (SyncRecon.processMapping lm m).1.rightColumnName = m.rightColumnName.getD ""
        ∧ (SyncRecon.processMapping lm m).1.useForJoining = m.useForJoining.getD false
        ∧ (SyncRecon.processMapping lm m).1.reconciliationRuleId = m.reconciliationRuleId
        ∧ (SyncRecon.processMapping lm m).1.isJoinColumnUsedForMeasure
            = m.isJoinColumnUsedForMeasure.getD false
        ∧ (SyncRecon.processMapping lm m).1.ignoreNullValues = m.ignoreNullValues.getD false
        ∧ (SyncRecon.processMapping lm m).1.weightage = m.weightage.getD 100
        ∧ (SyncRecon.processMapping lm m).1.ruleVersion = m.ruleVersion
        ∧ (SyncRecon.processMapping lm m).1.businessExplanation
            = m.businessExplanation.getD ""
        ∧ (SyncRecon.processMapping lm m).1.isWarning = m.isWarning.getD false
        ∧ (SyncRecon.processMapping lm m).1.isArchived = m.isArchived.getD false
        ∧ (SyncRecon.processMapping lm m).1.mappingType = m.mappingType.getD "AUTO")
    ∧ (∀ (pd : SyncRecon.PolicyData) (lm : List (String × String)),
        (SyncRecon.build_update_payload pd lm).1.items
          = (pd.details.items.map fun it =>
              { measurementType := it.measurementType.getD "EQUALITY",
                executionOrder := it.executionOrder.getD 1, id := it.id })
        ∧ (SyncRecon.build_update_payload pd lm).1.analyticsPipelineId
            = pd.rule.analyticsPipelineId
        ∧ (SyncRecon.build_update_payload pd lm).1.rule
            = SyncRecon.buildPayloadRule pd.rule) := by
  refine ⟨?_, ?_, ?_, ?_, ?_, ?_⟩
  · intros
    rfl
  · intro md5hex override lm it
    exact ⟨rfl, rfl, rfl, rfl, rfl, rfl, rfl, rfl, rfl, rfl, rfl, rfl⟩
  · intro md5hex override pd lm
    exact ⟨rfl, rfl, rfl⟩
  · intros
    rfl
  · intro lm m
    exact ⟨rfl, rfl, rfl, rfl, rfl, rfl, rfl, rfl, rfl, rfl, rfl, rfl, rfl, rfl⟩
  · intro pd lm
    exact ⟨rfl, rfl, rfl⟩

theorem applyNewMappings_frozen (pid k : String) :
    ∀ (ms : List SyncRecon.NewMapping) (keys : List String) (pl : PolicyLabels),
    (pid ++ "_" ++ k) ∈ keys →
    (∀ m ∈ (SyncRecon.applyNewMappings pid keys pl ms).1,
        SyncRecon.get_column_key m.leftCol m.rightCol ≠ k)
    ∧ lookup2 (SyncRecon.applyNewMappings pid keys pl ms).2.2 pid k = lookup2 pl pid k := by
  intro ms
  induction ms with
  | nil =>
    intro keys pl h
    exact ⟨by simp [SyncRecon.applyNewMappings], rfl⟩
  | cons m ms ih =>
    intro keys pl h
    by_cases hin : (pid ++ "_" ++ SyncRecon.get_column_key m.leftCol m.rightCol) ∈ keys
    · have heq : SyncRecon.applyNewMappings pid keys pl (m :: ms)
          = SyncRecon.applyNewMappings pid keys pl ms := by
        simp [SyncRecon.applyNewMappings, hin]
      rw [heq]
      exact ih keys pl h
    · have hne : SyncRecon.get_column_key m.leftCol m.rightCol ≠ k := by
        intro he
        rw [he] at hin
        exact hin h
      have hsub := ih ((pid ++ "_" ++ SyncRecon.get_column_key m.leftCol m.rightCol) :: keys)
        (insert2 pl pid (SyncRecon.get_column_key m.leftCol m.rightCol) (pyStr m.ruleId))
        (List.mem_cons_of_mem _ h)
      have heq : SyncRecon.applyNewMappings pid keys pl (m :: ms)
          = (m :: (SyncRecon.applyNewMappings pid
              ((pid ++ "_" ++ SyncRecon.get_column_key m.leftCol m.rightCol) :: keys)
              (insert2 pl pid (SyncRecon.get_column_key m.leftCol m.rightCol)
                (pyStr m.ruleId)) ms).1,
             (SyncRecon.applyNewMappings pid
              ((pid ++ "_" ++ SyncRecon.get_column_key m.leftCol m.rightCol) :: keys)
              (insert2 pl pid (SyncRecon.get_column_key m.leftCol m.rightCol)
                (pyStr m.ruleId)) ms).2) := by
        simp [SyncRecon.applyNewMappings, hin]
      rw [heq]
      constructor
      · intro x hx
        rcases List.mem_cons.mp hx with hx | hx
        · rw [hx]
          exact hne
        · exact hsub.1 x hx
      · calc lookup2 (SyncRecon.applyNewMappings pid _ _ ms).2.2 pid k
            = lookup2 (insert2 pl pid (SyncRecon.get_column_key m.leftCol m.rightCol)
                (pyStr m.ruleId)) pid k := hsub.2
          _ = lookup2 pl pid k := lookup2_insert2_same_pid_ne _ _ _ _ _ hne

theorem readCsvStep_keys_mono (acc : List String × PolicyLabels)
    (row : SyncRecon.CsvRow) (x : String) (h : x ∈ acc.1) :
    x ∈ (SyncRecon.readCsvStep acc row).1 := by
  unfold SyncRecon.readCsvStep
  split
  · exact List.mem_cons_of_mem _ h
  · exact h

theorem foldl_readCsvStep_keys_mono (rows : List SyncRecon.CsvRow) :
    ∀ (acc : List String × PolicyLabels) (x : String), x ∈ acc.1 →
    x ∈ (rows.foldl SyncRecon.readCsvStep acc).1 := by
  induction rows with
  | nil => exact fun acc x h => h
  | cons r rs ih =>
    intro acc x h
    exact ih (SyncRecon.readCsvStep acc r) x (readCsvStep_keys_mono acc r x h)

theorem mem_keys_read_existing_csv (row : SyncRecon.CsvRow)
    (h1 : truthy row.Policy_ID) (h2 : truthy row.Left_Column_Name)
    (h3 : truthy row.Right_Column_Name) :
    ∀ (rows : List SyncRecon.CsvRow), row ∈ rows →
    ((row.Policy_ID.getD "") ++ "_" ++ SyncRecon.get_column_key
        (row.Left_Column_Name.getD "") (row.Right_Column_Name.getD ""))
      ∈ (SyncRecon.read_existing_csv rows).1 := by
  have hstep : ∀ acc : List String × PolicyLabels,
      ((row.Policy_ID.getD "") ++ "_" ++ SyncRecon.get_column_key
        (row.Left_Column_Name.getD "") (row.Right_Column_Name.getD ""))
        ∈ (SyncRecon.readCsvStep acc row).1 := by
    intro acc
    unfold SyncRecon.readCsvStep
    simp [h1, h2, h3]
  have haux : ∀ (rows : List SyncRecon.CsvRow) (acc : List String × PolicyLabels),
      row ∈ rows →
      ((row.Policy_ID.getD "") ++ "_" ++ SyncRecon.get_column_key
        (row.Left_Column_Name.getD "") (row.Right_Column_Name.getD ""))
        ∈ (rows.foldl SyncRecon.readCsvStep acc).1 := by
    intro rows
    induction rows with
    | nil => intro acc h; simp at h
    | cons r rs ih =>
      intro acc hmem
      rcases List.mem_cons.mp hmem with hr | hr
      · subst hr
        exact foldl_readCsvStep_keys_mono rs _ _ (hstep acc)
      · exact ih _ hr
  intro rows hmem
  exact haux rows ([], []) hmem

/-- C1 counterexample: in the quality-rule pipeline the append guard is the
check's remote id, not the `(policyId, identityKey)` pair.  Starting from a
ledger whose CSV row records `(P, K) -> 101`, a rediscovered check with the
same key `K` but new remote id 202 is appended as a second row for the same
pair, and the `policy_labels` entry for `(P, K)` is overwritten from
`"101"` to `"202"`. -/
theorem c1_counterexample :
    SyncDQ.csvRow101.Policy_ID = some "P"
    ∧ SyncDQ.csvRow101.Column_Name = some "K"
    ∧ lookup2 (SyncDQ.read_existing_csv [SyncDQ.csvRow101]).2 "P" "K" = some "101"
    ∧ (SyncDQ.applyNewRules "P" (SyncDQ.read_existing_csv [SyncDQ.csvRow101]).1
        (SyncDQ.read_existing_csv [SyncDQ.csvRow101]).2 [SyncDQ.newRule202]).1
        = [SyncDQ.newRule202]
    ∧ SyncDQ.newRule202.policyId = "P"
    ∧ SyncDQ.newRule202.columnName = "K"
    ∧ lookup2 (SyncDQ.applyNewRules "P" (SyncDQ.read_existing_csv [SyncDQ.csvRow101]).1
        (SyncDQ.read_existing_csv [SyncDQ.csvRow101]).2 [SyncDQ.newRule202]).2.2 "P" "K"
        = some "202" := by
  refine ⟨rfl, rfl, by decide, by decide, rfl, rfl, by decide⟩

/-- C1 amended: the reconciliation pipeline satisfies the claim — once a
`(policyId, identityKey)` pair is present in `existing_mapping_keys`
(as it is for every CSV row that records the pair), no later pass appends a
row for that pair and its recorded `originalId` is never changed.  The
quality-rule pipeline instead guards the append on the check's remote id,
so a rediscovered check with the same key but a new remote id appends a
second row and overwrites the recorded id, as the counterexample shows. -/
theorem c1_ledger_upsert_amended (pid k : String) (keys : List String)
    (pl : PolicyLabels) (ms : List SyncRecon.NewMapping)
    (h : (pid ++ "_" ++ k) ∈ keys) :
    ((∀ m ∈ (SyncRecon.applyNewMappings pid keys pl ms).1,
        SyncRecon.get_column_key m.leftCol m.rightCol ≠ k)
      ∧ lookup2 (SyncRecon.applyNewMappings pid keys pl ms).2.2 pid k
          = lookup2 pl pid k)
    ∧ (∀ (rows : List SyncRecon.CsvRow) (row : SyncRecon.CsvRow), row ∈ rows →
        truthy row.Policy_ID → truthy row.Left_Column_Name →
        truthy row.Right_Column_Name →
        ((row.Policy_ID.getD "") ++ "_" ++ SyncRecon.get_column_key
            (row.Left_Column_Name.getD "") (row.Right_Column_Name.getD ""))
          ∈ (SyncRecon.read_existing_csv rows).1) := by
  refine ⟨applyNewMappings_frozen pid k ms keys pl h, ?_⟩
  intro rows row hmem h1 h2 h3
  exact mem_keys_read_existing_csv row h1 h2 h3 rows hmem

/-- C1 witness: with the pair `(P, a_b)` already ledgered as id 5, replaying
a rediscovery of the same mapping appends nothing and leaves the recorded
id unchanged. -/
theorem c1_ledger_upsert_witness :
    ((∀ m ∈ (SyncRecon.applyNewMappings "P" ["P_a_b"] [("P", [("a_b", "5")])]
        [SyncRecon.newMapping5]).1,
        SyncRecon.get_column_key m.leftCol m.rightCol ≠ "a_b")
      ∧ lookup2 (SyncRecon.applyNewMappings "P" ["P_a_b"] [("P", [("a_b", "5")])]
          [SyncRecon.newMapping5]).2.2 "P" "a_b"
          = lookup2 [("P", [("a_b", "5")])] "P" "a_b")
    ∧ (∀ (rows : List SyncRecon.CsvRow) (row : SyncRecon.CsvRow), row ∈ rows →
        truthy row.Policy_ID → truthy row.Left_Column_Name →
        truthy row.Right_Column_Name →
        ((row.Policy_ID.getD "") ++ "_" ++ SyncRecon.get_column_key
            (row.Left_Column_Name.getD "") (row.Right_Column_Name.getD ""))
          ∈ (SyncRecon.read_existing_csv rows).1) :=
  c1_ledger_upsert_amended "P" "a_b" ["P_a_b"] [("P", [("a_b", "5")])]
    [SyncRecon.newMapping5] (by decide)

theorem applyNewRules_sublist (pid : String) :
    ∀ (rs : List SyncDQ.NewRule) (ids : List String) (pl : PolicyLabels),
    ∀ r ∈ (SyncDQ.applyNewRules pid ids pl rs).1, r ∈ rs := by
  intro rs
  induction rs with
  | nil => intro ids pl r hr; simp [SyncDQ.applyNewRules] at hr
  | cons a rs ih =>
    intro ids pl r hr
    by_cases hin : pyStr a.ruleId ∈ ids
    · have heq : SyncDQ.applyNewRules pid ids pl (a :: rs)
          = SyncDQ.applyNewRules pid ids pl rs := by
        simp [SyncDQ.applyNewRules, hin]
      rw [heq] at hr
      exact List.mem_cons_of_mem _ (ih ids pl r hr)
    · have heq : (SyncDQ.applyNewRules pid ids pl (a :: rs)).1
          = a :: (SyncDQ.applyNewRules pid (pyStr a.ruleId :: ids)
              (insert2 pl pid a.columnName (pyStr a.ruleId)) rs).1 := by
        simp [SyncDQ.applyNewRules, hin]
      rw [heq] at hr
      rcases List.mem_cons.mp hr with hr | hr
      · exact hr ▸ List.mem_cons_self a rs
      · exact List.mem_cons_of_mem _ (ih _ _ r hr)

theorem find_new_rules_policyId (md5hex : String → String)
    (a b : SyncDQ.ItemsInfo) (pid name : String) :
    ∀ r ∈ SyncDQ.find_new_rules md5hex a b pid name, r.policyId = pid := by
  intro r hr
  rw [SyncDQ.find_new_rules, List.mem_filterMap] at hr
  obtain ⟨it, _, hsome⟩ := hr
  split at hsome
  · exact (Option.some.inj hsome) ▸ rfl
  · exact absurd hsome (by simp)

theorem applyNewRules_lookup2_other (pid0 pid : String) (hne : pid0 ≠ pid) (k : String) :
    ∀ (rs : List SyncDQ.NewRule) (ids : List String) (pl : PolicyLabels),
    lookup2 (SyncDQ.applyNewRules pid0 ids pl rs).2.2 pid k = lookup2 pl pid k := by
  intro rs
  induction rs with
  | nil => intro ids pl; rfl
  | cons a rs ih =>
    intro ids pl
    by_cases hin : pyStr a.ruleId ∈ ids
    · have heq : SyncDQ.applyNewRules pid0 ids pl (a :: rs)
          = SyncDQ.applyNewRules pid0 ids pl rs := by
        simp [SyncDQ.applyNewRules, hin]
      rw [heq]
      exact ih ids pl
    · have heq : (SyncDQ.applyNewRules pid0 ids pl (a :: rs)).2.2
          = (SyncDQ.applyNewRules pid0 (pyStr a.ruleId :: ids)
              (insert2 pl pid0 a.columnName (pyStr a.ruleId)) rs).2.2 := by
        simp [SyncDQ.applyNewRules, hin]
      rw [heq, ih _ _]
      exact lookup2_insert2_other_pid _ _ _ _ _ _ hne

/-- C8: when, for every diff-candidate entry of a policy, the baseline
(version 1) fetch or the latest-version fetch returns `None` (the embedding
of a non-200 status or an exception), STEP 1 appends no ledger row for that
policy and leaves its `policy_labels` untouched; the other policies are
still processed (the step function is total, so no exception propagates). -/
theorem c8_fetch_failure_skips (md5hex : String → String)
    (fetch : String → Nat → Option SyncDQ.PolicyData)
    (policies : List SyncDQ.PolicyToCompare) (pid k : String) :
    ∀ (ids : List String) (pl : PolicyLabels),
    (∀ p ∈ policies, p.policy_id = pid →
        fetch pid 1 = none ∨ fetch pid p.version = none) →
    (∀ r ∈ (SyncDQ.step1 md5hex fetch policies ids pl).1, r.policyId ≠ pid)
    ∧ lookup2 (SyncDQ.step1 md5hex fetch policies ids pl).2.2 pid k
        = lookup2 pl pid k := by
  induction policies with
  | nil =>
    intro ids pl _
    exact ⟨by simp [SyncDQ.step1], rfl⟩
  | cons p ps ih =>
    intro ids pl h
    have hps : ∀ q ∈ ps, q.policy_id = pid →
        fetch pid 1 = none ∨ fetch pid q.version = none :=
      fun q hq => h q (List.mem_cons_of_mem _ hq)
    rcases hf1 : fetch p.policy_id 1 with _ | v1d
    · have heq : SyncDQ.step1 md5hex fetch (p :: ps) ids pl
          = SyncDQ.step1 md5hex fetch ps ids pl := by
        simp [SyncDQ.step1, hf1]
      rw [heq]
      exact ih ids pl hps
    · rcases hf2 : fetch p.policy_id p.version with _ | vLd
      · have heq : SyncDQ.step1 md5hex fetch (p :: ps) ids pl
            = SyncDQ.step1 md5hex fetch ps ids pl := by
          simp [SyncDQ.step1, hf1, hf2]
        rw [heq]
        exact ih ids pl hps
      · have hpne : p.policy_id ≠ pid := by
          intro he
          rcases h p (List.mem_cons_self p ps) he with hc | hc
          · rw [← he, hf1] at hc
            exact Option.noConfusion hc
          · rw [← he, hf2] at hc
            exact Option.noConfusion hc
        have heq : SyncDQ.step1 md5hex fetch (p :: ps) ids pl
            = ((SyncDQ.applyNewRules p.policy_id ids pl
                  (SyncDQ.find_new_rules md5hex (SyncDQ.extract_items_info v1d)
                    (SyncDQ.extract_items_info vLd) p.policy_id p.name)).1
                ++ (SyncDQ.step1 md5hex fetch ps
                    (SyncDQ.applyNewRules p.policy_id ids pl
                      (SyncDQ.find_new_rules md5hex (SyncDQ.extract_items_info v1d)
                        (SyncDQ.extract_items_info vLd) p.policy_id p.name)).2.1
                    (SyncDQ.applyNewRules p.policy_id ids pl
                      (SyncDQ.find_new_rules md5hex (SyncDQ.extract_items_info v1d)
                        (SyncDQ.extract_items_info vLd) p.policy_id p.name)).2.2).1,
               (SyncDQ.step1 md5hex fetch ps
                    (SyncDQ.applyNewRules p.policy_id ids pl
                      (SyncDQ.find_new_rules md5hex (SyncDQ.extract_items_info v1d)
                        (SyncDQ.extract_items_info vLd) p.policy_id p.name)).2.1
                    (SyncDQ.applyNewRules p.policy_id ids pl
                      (SyncDQ.find_new_rules md5hex (SyncDQ.extract_items_info v1d)
                        (SyncDQ.extract_items_info vLd) p.policy_id p.name)).2.2).2) := by
          simp [SyncDQ.step1, hf1, hf2]
        rw [heq]
        have hrest := ih (SyncDQ.applyNewRules p.policy_id ids pl
              (SyncDQ.find_new_rules md5hex (SyncDQ.extract_items_info v1d)
                (SyncDQ.extract_items_info vLd) p.policy_id p.name)).2.1
            (SyncDQ.applyNewRules p.policy_id ids pl
              (SyncDQ.find_new_rules md5hex (SyncDQ.extract_items_info v1d)
                (SyncDQ.extract_items_info vLd) p.policy_id p.name)).2.2 hps
        constructor
        · intro r hr
          rcases List.mem_append.mp hr with hr | hr
          · have hmem := applyNewRules_sublist p.policy_id _ ids pl r hr
            have := find_new_rules_policyId md5hex _ _ p.policy_id p.name r hmem
            rw [this]
            exact hpne
          · exact hrest.1 r hr
        · rw [hrest.2]
          exact applyNewRules_lookup2_other p.policy_id pid hpne k _ ids pl

/-- C8 witness: a single candidate policy whose fetches both fail; the run
appends no row for it and its labels are untouched. -/
theorem c8_fetch_failure_witness :
    (∀ r ∈ (SyncDQ.step1 (fun _ => "") (fun _ _ => none)
        [{ policy_id := "P", version := 2, name := "N" }] [] []).1, r.policyId ≠ "P")
    ∧ lookup2 (SyncDQ.step1 (fun _ => "") (fun _ _ => none)
        [{ policy_id := "P", version := 2, name := "N" }] [] []).2.2 "P" "K"
        = lookup2 [] "P" "K" :=
  c8_fetch_failure_skips (fun _ => "") (fun _ _ => none)
    [{ policy_id := "P", version := 2, name := "N" }] "P" "K" [] []
    (fun _ _ _ => Or.inl rfl)

theorem gcn_ext (md5hex : String → String) (it1 it2 : Item)
    (h1 : it1.measurementType = it2.measurementType)
    (h2 : it1.columnName.getD "" = it2.columnName.getD "")
    (h3 : it1.ruleExpression.getD "" = it2.ruleExpression.getD "")
    (h4 : it1.value = it2.value) :
    SyncDQ.get_column_name md5hex it1 = SyncDQ.get_column_name md5hex it2 := by
  unfold SyncDQ.get_column_name SyncDQ.compute_hash
  rw [h1, h2, h3, h4]

theorem gcn_ne_empty (md5hex : String → String) (it : Item) :
    SyncDQ.get_column_name md5hex it ≠ "" := by
  unfold SyncDQ.get_column_name
  by_cases h1 : it.measurementType.getD "" = "CUSTOM" <;>
  by_cases h2 : it.measurementType.getD "" = "SQL_METRIC" <;>
  by_cases h3 : it.measurementType.getD "" = "UDF_PREDICATE" <;>
  by_cases h4 : it.measurementType.getD "" = "SIZE_CHECK" <;>
  by_cases h5 : it.columnName.getD "" = "" <;>
  by_cases h6 : it.measurementType.getD "" = "" <;>
    simp [h1, h2, h3, h4, h5, h6, String.ext_iff, String.data_append]

theorem get_column_key_ne_empty (lc rc : String) :
    SyncRecon.get_column_key lc rc ≠ "" := by
  unfold SyncRecon.get_column_key
  simp [String.ext_iff, String.data_append]

theorem processItem_proj_ruleExpression (md5hex : String → String)
    (lm : List (String × String)) (o : Bool) (it : Item) :
    (SyncDQ.itemOfPayloadItem (SyncDQ.processItem md5hex o lm it).1).ruleExpression.getD ""
      = it.ruleExpression.getD "" := by
  by_cases he : it.ruleExpression.getD "" = "" <;>
    simp [SyncDQ.processItem, SyncDQ.itemOfPayloadItem, he]

theorem gcn_itemOf_processItem (md5hex : String → String)
    (lm : List (String × String)) (o : Bool) (it : Item) :
    SyncDQ.get_column_name md5hex
        (SyncDQ.itemOfPayloadItem (SyncDQ.processItem md5hex o lm it).1)
      = SyncDQ.get_column_name md5hex it :=
  gcn_ext md5hex _ it rfl rfl (processItem_proj_ruleExpression md5hex lm o it) rfl

theorem payloadItem_ext (a b : SyncDQ.PayloadItem)
    (h1 : a.measurementType = b.measurementType) (h2 : a.columnName = b.columnName)
    (h3 : a.executionOrder = b.executionOrder) (h4 : a.weightage = b.weightage)
    (h5 : a.businessExplanation = b.businessExplanation) (h6 : a.labels = b.labels)
    (h7 : a.isWarning = b.isWarning)
    (h8 : a.associatedDQRecommendationId = b.associatedDQRecommendationId)
    (h9 : a.bulkPolicyDqRuleId = b.bulkPolicyDqRuleId)
    (h10 : a.thresholdConfig = b.thresholdConfig) (h11 : a.value = b.value)
    (h12 : a.id = b.id) (h13 : a.ruleExpression = b.ruleExpression) : a = b := by
  cases a
  cases b
  simp_all

theorem processItem_normal_as (md5hex : String → String)
    (lm : List (String × String)) (it : Item) :
    (SyncDQ.processItem md5hex false lm it).2
      = (match alookup (SyncDQ.get_column_name md5hex it) lm with
         | some _ =>
           if SyncDQ.get_column_name md5hex it ∈ truthyKeys it.labels
           then ([], [SyncDQ.get_column_name md5hex it])
           else ([SyncDQ.get_column_name md5hex it], [])
         | none => ([], [])) := by
  unfold SyncDQ.processItem
  rcases h : alookup (SyncDQ.get_column_name md5hex it) lm with _ | v
  · simp [h]
  · by_cases hm : SyncDQ.get_column_name md5hex it ∈ truthyKeys it.labels <;> simp [h, hm]

theorem mem_truthyKeys_pass1 (md5hex : String → String)
    (lm : List (String × String)) (it : Item) (v : String)
    (hk : alookup (SyncDQ.get_column_name md5hex it) lm = some v) :
    SyncDQ.get_column_name md5hex it
      ∈ truthyKeys (SyncDQ.processItem md5hex false lm it).1.labels := by
  rw [processItem_normal_labels, hk]
  show SyncDQ.get_column_name md5hex it ∈ truthyKeys (it.labels ++
    if SyncDQ.get_column_name md5hex it ∈ truthyKeys it.labels then []
    else [{ key := some (SyncDQ.get_column_name md5hex it), value := some v }])
  rw [truthyKeys_append]
  by_cases hm : SyncDQ.get_column_name md5hex it ∈ truthyKeys it.labels
  · exact List.mem_append_left _ hm
  · rw [if_neg hm]
    exact List.mem_append_right _ (mem_truthyKeys_single _ _ (gcn_ne_empty md5hex it))

theorem pass2_ruleExpression (md5hex : String → String)
    (lm : List (String × String)) (it : Item) :
    (SyncDQ.processItem md5hex false lm
        (SyncDQ.itemOfPayloadItem (SyncDQ.processItem md5hex false lm it).1)).1.ruleExpression
      = (SyncDQ.processItem md5hex false lm it).1.ruleExpression := by
  by_cases he : it.ruleExpression.getD "" = "" <;>
    simp [SyncDQ.processItem, SyncDQ.itemOfPayloadItem, he]

theorem pass2_labels (md5hex : String → String)
    (lm : List (String × String)) (it : Item) :
    (SyncDQ.processItem md5hex false lm
        (SyncDQ.itemOfPayloadItem (SyncDQ.processItem md5hex false lm it).1)).1.labels
      = (SyncDQ.processItem md5hex false lm it).1.labels := by
  rw [processItem_normal_labels, gcn_itemOf_processItem]
  rcases hk : alookup (SyncDQ.get_column_name md5hex it) lm with _ | v
  · simp [hk, SyncDQ.itemOfPayloadItem]
  · simp [hk, SyncDQ.itemOfPayloadItem, mem_truthyKeys_pass1 md5hex lm it v hk]

theorem processItem_pass2 (md5hex : String → String)
    (lm : List (String × String)) (it : Item) :
    SyncDQ.processItem md5hex false lm
        (SyncDQ.itemOfPayloadItem (SyncDQ.processItem md5hex false lm it).1)
      = ((SyncDQ.processItem md5hex false lm it).1, [],
         if (alookup (SyncDQ.get_column_name md5hex it) lm).isSome
         then [SyncDQ.get_column_name md5hex it] else []) := by
  refine Prod.ext ?_ ?_
  · exact payloadItem_ext _ _ rfl rfl rfl rfl rfl (pass2_labels md5hex lm it) rfl rfl rfl
      rfl rfl rfl (pass2_ruleExpression md5hex lm it)
  · rw [processItem_normal_as, gcn_itemOf_processItem]
    rcases hk : alookup (SyncDQ.get_column_name md5hex it) lm with _ | v
    · simp [hk]
    · simp [hk, SyncDQ.itemOfPayloadItem, mem_truthyKeys_pass1 md5hex lm it v hk]

theorem flatten_map_nil {α : Type} (l : List α) :
    ((l.map fun _ => ([] : List String)).flatten) = [] := by
  induction l <;> simp [*]

theorem flatten_map_ite_gcn (md5hex : String → String) (lm : List (String × String))
    (l : List Item) :
    ((l.map fun it => if (alookup (SyncDQ.get_column_name md5hex it) lm).isSome
        then [SyncDQ.get_column_name md5hex it] else []).flatten)
      = (l.map fun it => SyncDQ.get_column_name md5hex it).filter
          fun k => (alookup k lm).isSome := by
  induction l with
  | nil => rfl
  | cons a l ih =>
    by_cases h : (alookup (SyncDQ.get_column_name md5hex a) lm).isSome <;>
      simp [h, ih, List.filter_cons]

theorem buildPayloadRule_roundtrip (r : SyncDQ.Rule) (e : String) :
    SyncDQ.buildPayloadRule (SyncDQ.ruleOfPayloadRule (SyncDQ.buildPayloadRule r) e)
      = SyncDQ.buildPayloadRule r := rfl

theorem c5_dq_pass (md5hex : String → String) (pd : SyncDQ.PolicyData)
    (lm : List (String × String)) :
    SyncDQ.build_update_payload md5hex false
        (SyncDQ.policyDataOfPayload (SyncDQ.build_update_payload md5hex false pd lm).1) lm
      = ((SyncDQ.build_update_payload md5hex false pd lm).1, [],
         (pd.details.items.map fun it => SyncDQ.get_column_name md5hex it).filter
           fun k => (alookup k lm).isSome) := by
  unfold SyncDQ.build_update_payload SyncDQ.policyDataOfPayload
  simp only [List.map_map, Function.comp_def, processItem_pass2]
  simp [flatten_map_nil, flatten_map_ite_gcn, buildPayloadRule_roundtrip,
    SyncDQ.ruleOfPayloadRule]
  rfl

theorem payloadMapping_ext (a b : SyncRecon.PayloadMapping)
    (h1 : a.id = b.id) (h2 : a.leftColumnName = b.leftColumnName)
    (h3 : a.operation = b.operation) (h4 : a.rightColumnName = b.rightColumnName)
    (h5 : a.useForJoining = b.useForJoining)
    (h6 : a.reconciliationRuleId = b.reconciliationRuleId)
    (h7 : a.isJoinColumnUsedForMeasure = b.isJoinColumnUsedForMeasure)
    (h8 : a.ignoreNullValues = b.ignoreNullValues) (h9 : a.weightage = b.weightage)
    (h10 : a.ruleVersion = b.ruleVersion)
    (h11 : a.businessExplanation = b.businessExplanation) (h12 : a.isWarning = b.isWarning)
    (h13 : a.labels = b.labels) (h14 : a.isArchived = b.isArchived)
    (h15 : a.mappingType = b.mappingType) : a = b := by
  cases a
  cases b
  simp_all

theorem processMapping_normal_as (lm : List (String × String)) (m : SyncRecon.Mapping) :
    (SyncRecon.processMapping lm m).2
      = (match alookup (SyncRecon.mappingKey m) lm with
         | some _ =>
           if SyncRecon.mappingKey m ∈ truthyKeys m.labels
           then ([], [SyncRecon.mappingKey m])
           else ([SyncRecon.mappingKey m], [])
         | none => ([], [])) := by
  unfold SyncRecon.processMapping SyncRecon.mappingKey
  rcases h : alookup (SyncRecon.get_column_key (m.leftColumnName.getD "")
      (m.rightColumnName.getD "")) lm with _ | v
  · simp [h]
  · by_cases hm : SyncRecon.get_column_key (m.leftColumnName.getD "")
        (m.rightColumnName.getD "") ∈ truthyKeys m.labels <;> simp [h, hm]

theorem mappingKey_mappingOf_processMapping (lm : List (String × String))
    (m : SyncRecon.Mapping) :
    SyncRecon.mappingKey
        (SyncRecon.mappingOfPayloadMapping (SyncRecon.processMapping lm m).1)
      = SyncRecon.mappingKey m := rfl

theorem mem_truthyKeys_pass1_recon (lm : List (String × String))
    (m : SyncRecon.Mapping) (v : String)
    (hk : alookup (SyncRecon.mappingKey m) lm = some v) :
    SyncRecon.mappingKey m
      ∈ truthyKeys (SyncRecon.processMapping lm m).1.labels := by
  rw [processMapping_labels, hk]
  show SyncRecon.mappingKey m ∈ truthyKeys (m.labels ++
    if SyncRecon.mappingKey m ∈ truthyKeys m.labels then []
    else [{ key := some (SyncRecon.mappingKey m), value := some v }])
  rw [truthyKeys_append]
  by_cases hm : SyncRecon.mappingKey m ∈ truthyKeys m.labels
  · exact List.mem_append_left _ hm
  · rw [if_neg hm]
    refine List.mem_append_right _ (mem_truthyKeys_single _ _ ?_)
    unfold SyncRecon.mappingKey
    exact get_column_key_ne_empty _ _

theorem pass2_labels_recon (lm : List (String × String)) (m : SyncRecon.Mapping) :
    (SyncRecon.processMapping lm
        (SyncRecon.mappingOfPayloadMapping (SyncRecon.processMapping lm m).1)).1.labels
      = (SyncRecon.processMapping lm m).1.labels := by
  rw [processMapping_labels, mappingKey_mappingOf_processMapping]
  rcases hk : alookup (SyncRecon.mappingKey m) lm with _ | v
  · simp [hk, SyncRecon.mappingOfPayloadMapping]
  · simp [hk, SyncRecon.mappingOfPayloadMapping, mem_truthyKeys_pass1_recon lm m v hk]

theorem processMapping_pass2 (lm : List (String × String)) (m : SyncRecon.Mapping) :
    SyncRecon.processMapping lm
        (SyncRecon.mappingOfPayloadMapping (SyncRecon.processMapping lm m).1)
      = ((SyncRecon.processMapping lm m).1, [],
         if (alookup (SyncRecon.mappingKey m) lm).isSome
         then [SyncRecon.mappingKey m] else []) := by
  refine Prod.ext ?_ ?_
  · exact payloadMapping_ext _ _ rfl rfl rfl rfl rfl rfl rfl rfl rfl rfl rfl rfl
      (pass2_labels_recon lm m) rfl rfl
  · rw [processMapping_normal_as, mappingKey_mappingOf_processMapping]
    rcases hk : alookup (SyncRecon.mappingKey m) lm with _ | v
    · simp [hk]
    · simp [hk, SyncRecon.mappingOfPayloadMapping, mem_truthyKeys_pass1_recon lm m v hk]

theorem flatten_map_ite_key (lm : List (String × String)) (l : List SyncRecon.Mapping) :
    ((l.map fun m => if (alookup (SyncRecon.mappingKey m) lm).isSome
        then [SyncRecon.mappingKey m] else []).flatten)
      = (l.map fun m => SyncRecon.mappingKey m).filter fun k => (alookup k lm).isSome := by
  induction l with
  | nil => rfl
  | cons a l ih =>
    by_cases h : (alookup (SyncRecon.mappingKey a) lm).isSome <;>
      simp [h, ih, List.filter_cons]

theorem buildPayloadRule_roundtrip_recon (r : SyncRecon.Rule) :
    SyncRecon.buildPayloadRule (SyncRecon.ruleOfPayloadRule (SyncRecon.buildPayloadRule r))
      = SyncRecon.buildPayloadRule r := rfl

theorem reconItems_roundtrip (l : List SyncRecon.PayloadReconItem) :
    ((l.map SyncRecon.reconItemOfPayloadItem).map fun it =>
        ({ measurementType := it.measurementType.getD "EQUALITY",
           executionOrder := it.executionOrder.getD 1,
           id := it.id } : SyncRecon.PayloadReconItem)) = l := by
  induction l with
  | nil => rfl
  | cons a l ih => simp [SyncRecon.reconItemOfPayloadItem, ih]

theorem c5_recon_pass (pd : SyncRecon.PolicyData) (lm : List (String × String)) :
    SyncRecon.build_update_payload
        (SyncRecon.policyDataOfPayload (SyncRecon.build_update_payload pd lm).1) lm
      = ((SyncRecon.build_update_payload pd lm).1, [],
         (pd.details.columnMappings.map fun m => SyncRecon.mappingKey m).filter
           fun k => (alookup k lm).isSome) := by
  unfold SyncRecon.build_update_payload SyncRecon.policyDataOfPayload
  simp only [List.map_map, Function.comp_def, processMapping_pass2]
  simp [flatten_map_nil, flatten_map_ite_key, buildPayloadRule_roundtrip_recon,
    reconItems_roundtrip, SyncRecon.ruleOfPayloadRule]
  exact ⟨rfl, fun a _ => ⟨rfl, rfl, rfl⟩, rfl⟩

/-- C5: normal-mode reconciliation is idempotent in both categories — feeding
the payload produced by one pass back into a second pass with the same
ledger map returns the identical payload, adds zero labels, and reports as
skipped exactly the identity keys of the definition that the ledger map
matches; moreover, within a single pass, an item whose exact key string is
already a label key on the item gets nothing added and keeps its labels
unchanged. -/
theorem c5_idempotent :
    (∀ (md5hex : String → String) (pd : SyncDQ.PolicyData) (lm : List (String × String)),
      SyncDQ.build_update_payload md5hex false
          (SyncDQ.policyDataOfPayload (SyncDQ.build_update_payload md5hex false pd lm).1) lm
        = ((SyncDQ.build_update_payload md5hex false pd lm).1, [],
           (pd.details.items.map fun it => SyncDQ.get_column_name md5hex it).filter
             fun k => (alookup k lm).isSome))
    ∧ (∀ (pd : SyncRecon.PolicyData) (lm : List (String × String)),
      SyncRecon.build_update_payload
          (SyncRecon.policyDataOfPayload (SyncRecon.build_update_payload pd lm).1) lm
        = ((SyncRecon.build_update_payload pd lm).1, [],
           (pd.details.columnMappings.map fun m => SyncRecon.mappingKey m).filter
             fun k => (alookup k lm).isSome))
    ∧ (∀ (md5hex : String → String) (lm : List (String × String)) (it : Item),
        SyncDQ.get_column_name md5hex it ∈ truthyKeys it.labels →
        (SyncDQ.processItem md5hex false lm it).2.1 = []
        ∧ (SyncDQ.processItem md5hex false lm it).1.labels = it.labels) := by
  refine ⟨fun md5hex pd lm => c5_dq_pass md5hex pd lm,
    fun pd lm => c5_recon_pass pd lm, ?_⟩
  intro md5hex lm it hm
  constructor
  · have h2 := processItem_normal_as md5hex lm it
    rcases hk : alookup (SyncDQ.get_column_name md5hex it) lm with _ | v <;> rw [hk] at h2
    · rw [show (SyncDQ.processItem md5hex false lm it).2.1
          = ((SyncDQ.processItem md5hex false lm it).2).1 from rfl, h2]
    · rw [show (SyncDQ.processItem md5hex false lm it).2.1
          = ((SyncDQ.processItem md5hex false lm it).2).1 from rfl, h2]
      simp [hm]
  · rw [processItem_normal_labels]
    rcases hk : alookup (SyncDQ.get_column_name md5hex it) lm with _ | v
    · simp
    · simp [hm]

/-- C5 witness: a SIZE_CHECK item already labeled with its own key; the pass
adds nothing and keeps the labels unchanged. -/
theorem c5_idempotent_witness :
    SyncDQ.get_column_name (fun _ => "") itemSC ∈ truthyKeys itemSC.labels
    ∧ ((SyncDQ.processItem (fun _ => "") false [("SIZE_CHECK", "2")] itemSC).2.1 = []
       ∧ (SyncDQ.processItem (fun _ => "") false
           [("SIZE_CHECK", "2")] itemSC).1.labels = itemSC.labels) :=
  ⟨by decide, c5_idempotent.2.2 (fun _ => "") [("SIZE_CHECK", "2")] itemSC (by decide)⟩
